import Mathlib

/-!
Convoys of Simutrans (OTRP): a shallow embedding of `simconvoi.h`

The data model of `convoi_t` (src/simconvoi.h) and the inline member functions
defined in that header, together with `convoi_detail_t::action_triggered`
(src/gui/convoi_detail_t.cc).

Conventions of the embedding:
* machine integers are `Nat` (unsigned) or `Int` (signed);
* a member function that writes the object is a function `convoi_t → convoi_t`;
  one that can stop on an `assert` returns `Option convoi_t` (`none` = the
  assertion failed, no successor state);
* pointers (`player_t*`, `signal_t*`, `vehicle_t*`, `schedule_t*`) are abstract
  addresses: two pointers are equal iff the addresses are.
-/

/-! ## Types the header uses -/

/-- The 2d map coordinate `koord` (two `sint16`). -/
structure koord where
  x : Int
  y : Int
deriving DecidableEq, Repr

/-- The 3d map coordinate `koord3d` (`sint16 x, y`, `sint8 z`): a tile. -/
structure koord3d where
  x : Int
  y : Int
  z : Int
deriving DecidableEq, Repr

/-- Modelled from the spec: `tpl/vector_tpl.h` is not among the sources. The
spec calls the reservation "a set of tile coordinates" kept in claim order
(there is an "oldest tile"), so `vector_tpl<T>` is an ordered sequence, oldest
element first. -/
abbrev vector_tpl (α : Type) := List α

namespace vector_tpl

variable {α : Type} [DecidableEq α]

/-- Modelled from the spec: `vector_tpl::is_contained` (header missing), a
linear scan with `==`. -/
def is_contained : vector_tpl α → α → Bool
  | [], _ => false
  | x :: xs, elem => if x = elem then true else is_contained xs elem

/-- Modelled from the spec: `vector_tpl::append` (header missing) puts the
element behind the last one. -/
def append (v : vector_tpl α) (elem : α) : vector_tpl α :=
  v ++ [elem]

/-- Modelled from the spec: `vector_tpl::append_unique` (header missing)
appends only an element that is not yet contained. -/
def append_unique (v : vector_tpl α) (elem : α) : vector_tpl α :=
  if is_contained v elem then v else append v elem

/-- Modelled from the spec: `vector_tpl::remove` (header missing) scans from
the front and takes out the first element equal to `elem`, keeping the order of
the others; nothing happens when `elem` is not contained. -/
def remove : vector_tpl α → α → vector_tpl α
  | [], _ => []
  | x :: xs, elem => if x = elem then xs else x :: remove xs elem

/-- Modelled from the spec: `vector_tpl::remove_at` (header missing) asserts
that the index is in range and takes that element out. -/
def remove_at (v : vector_tpl α) (pos : Nat) : Option (vector_tpl α) :=
  if pos < v.length then some (v.eraseIdx pos) else none

/-- Modelled from the spec: `vector_tpl::empty` (header missing). -/
def empty (v : vector_tpl α) : Bool :=
  v.length == 0

end vector_tpl

/-- Modelled from the spec: `convoihandle_t.h` is not among the sources. A
handle is either unbound (`none`) or names one convoy of the world by its
number. -/
abbrev convoihandle_t := Option Nat

/-- Modelled from the spec: `convoihandle_t::is_bound` (header missing). -/
def convoihandle_t.is_bound (h : convoihandle_t) : Bool :=
  h.isSome

/-- The request a convoy files at a longblock signal
(`convoi_t::longblock_signal_request_t`). -/
structure longblock_signal_request_t where
  valid : Bool
  sig : Nat
  next_block : Nat
deriving DecidableEq, Repr

/-! ## `convoi_t` -/

/-- The data members of `class convoi_t`, in the order of the header. -/
structure convoi_t where
  wait_lock : Int
  state : Nat
  line_update_pending : Option Nat
  recalc_data_front : Bool
  recalc_data : Bool
  recalc_speed_limit : Bool
  recalc_min_top_speed : Bool
  previous_delta_v : Nat
  sum_gear_and_power : Int
  sum_gesamtweight : Int
  sum_friction_weight : Int
  akt_speed_soll : Int
  akt_speed : Int
  next_stop_index : Nat
  speed_limit : Int
  brake_speed_soll : Int
  min_top_speed : Int
  sp_soll : Int
  max_record_speed : Int
  record_pos : koord
  steps_driven : Int
  fahr : List Nat
  anz_vehikel : Nat
  next_wolke : Nat
  route : List koord3d
  line : Option Nat
  schedule : Nat
  schedule_target : koord3d
  loading_level : Int
  loading_limit : Int
  goods_catg_index : List Nat
  owner : Nat
  coupling_convoi : convoihandle_t
  withdraw : Bool
  no_load : Bool
  freight_info_resort : Bool
  has_obsolete : Bool
  is_electric : Bool
  freight_info_order : Nat
  sum_running_costs : Int
  sum_fixed_costs : Int
  sum_power : Nat
  sum_weight : Int
  next_reservation_index : Nat
  reserved_tiles : vector_tpl koord3d
  next_coupling_index : Nat
  next_coupling_steps : Nat
  coupling_done : Bool
  next_initial_direction : Nat
  arrived_time : Nat
  scheduled_departure_time : Nat
  scheduled_coupling_delay_tolerance : Nat
  time_last_arrived : Nat
  requested_change_lane : Bool
  jahresgewinn : Int
  total_distance_traveled : Int
  distance_since_last_stop : Nat
  sum_speed_limit : Nat
  speedbonus_kmh : Int
  maxspeed_average_count : Int
  alte_richtung : Nat
  speed_magnification : Nat
  acceleration_magnification : Nat
  in_delay_recovery : Bool
  longblock_signal_request : longblock_signal_request_t
  financial_history : List (List Int)
  home_depot : koord3d
  name_offset : Nat
  name_and_id : String
  crossing_reservation_index : vector_tpl (Nat × Nat)
  yielding_quit_index : Int
  lane_affinity : Int
  lane_affinity_end_index : Nat
  next_cross_lane : Bool
  request_cross_ticks : Nat
  self : convoihandle_t
  permit_trade : Bool
  accept_player_nr : Nat

namespace convoi_t

/-! ### `enum states` -/

def INITIAL : Nat := 0
def EDIT_SCHEDULE : Nat := 1
def ROUTING_1 : Nat := 2
def DUMMY4 : Nat := 3
def DUMMY5 : Nat := 4
def NO_ROUTE : Nat := 5
def DRIVING : Nat := 6
def LOADING : Nat := 7
def WAITING_FOR_CLEARANCE : Nat := 8
def WAITING_FOR_CLEARANCE_ONE_MONTH : Nat := 9
def CAN_START : Nat := 10
def CAN_START_ONE_MONTH : Nat := 11
def SELF_DESTRUCT : Nat := 12
def WAITING_FOR_CLEARANCE_TWO_MONTHS : Nat := 13
def CAN_START_TWO_MONTHS : Nat := 14
def LEAVING_DEPOT : Nat := 15
def ENTERING_DEPOT : Nat := 16
def COUPLED : Nat := 17
def COUPLED_LOADING : Nat := 18
def WAITING_FOR_LEAVING_DEPOT : Nat := 19
def MAX_STATES : Nat := 20

/-! ### Reservation bookkeeping (`reserved_tiles`) -/

/-- Source: `void unreserve_pos(koord3d pos) { reserved_tiles.remove(pos); }` -/
def unreserve_pos (c : convoi_t) (pos : koord3d) : convoi_t :=
  { c with reserved_tiles := vector_tpl.remove c.reserved_tiles pos }

/-- Source: `void reserve_pos(koord3d pos) {reserved_tiles.append_unique(pos); }` -/
def reserve_pos (c : convoi_t) (pos : koord3d) : convoi_t :=
  { c with reserved_tiles := vector_tpl.append_unique c.reserved_tiles pos }

/-- Source: `bool is_reservation_empty() const { return reserved_tiles.empty(); }` -/
def is_reservation_empty (c : convoi_t) : Bool :=
  vector_tpl.empty c.reserved_tiles

/-! ### The state -/

/-- Source: `void set_state( uint16 new_state ) { assert(new_state<MAX_STATES); state = (states)new_state; }`
with the assertion compiled in: `none` when it fails. -/
def set_state (c : convoi_t) (new_state : Nat) : Option convoi_t :=
  if new_state < MAX_STATES then some { c with state := new_state } else none

/-- Source: `int get_state() const { return state; }` -/
def get_state (c : convoi_t) : Int :=
  (c.state : Int)

/-- Source: `bool is_waiting() { return (state>=WAITING_FOR_CLEARANCE  &&  state<=CAN_START_TWO_MONTHS)  &&  state!=SELF_DESTRUCT; }` -/
def is_waiting (c : convoi_t) : Bool :=
  (decide (WAITING_FOR_CLEARANCE ≤ c.state) && decide (c.state ≤ CAN_START_TWO_MONTHS))
    && decide (c.state ≠ SELF_DESTRUCT)

/-- Source: `void reset_waiting() { state=WAITING_FOR_CLEARANCE; }` -/
def reset_waiting (c : convoi_t) : convoi_t :=
  { c with state := WAITING_FOR_CLEARANCE }

/-- Source: `bool in_depot() const { return state == INITIAL; }` -/
def in_depot (c : convoi_t) : Bool :=
  decide (c.state = INITIAL)

/-- Source: `bool is_loading() const { return state==LOADING  ||  state==COUPLED_LOADING; }` -/
def is_loading (c : convoi_t) : Bool :=
  decide (c.state = LOADING) || decide (c.state = COUPLED_LOADING)

/-- Source: `bool is_coupled() const { return state==COUPLED  ||  state==COUPLED_LOADING; }` -/
def is_coupled (c : convoi_t) : Bool :=
  decide (c.state = COUPLED) || decide (c.state = COUPLED_LOADING)

/-- Source: `convoihandle_t get_coupling_convoi() const {return coupling_convoi;}` -/
def get_coupling_convoi (c : convoi_t) : convoihandle_t :=
  c.coupling_convoi

/-! ### The dirty flags of the lazy recomputation -/

/-- Source: `void must_recalc_data() { recalc_data = true; }` -/
def must_recalc_data (c : convoi_t) : convoi_t :=
  { c with recalc_data := true }

/-- Source: `void must_recalc_data_front() { recalc_data_front = true; }` -/
def must_recalc_data_front (c : convoi_t) : convoi_t :=
  { c with recalc_data_front := true }

/-- Source: `void must_recalc_speed_limit() { recalc_speed_limit = true; }` -/
def must_recalc_speed_limit (c : convoi_t) : convoi_t :=
  { c with recalc_speed_limit := true }

/-- Source: `bool get_recalc_speed_limit() const { return recalc_speed_limit; }` -/
def get_recalc_speed_limit (c : convoi_t) : Bool :=
  c.recalc_speed_limit

/-- Source: `void must_recalc_min_top_speed() { recalc_min_top_speed = true; }` -/
def must_recalc_min_top_speed (c : convoi_t) : convoi_t :=
  { c with recalc_min_top_speed := true }

/-- Source: `void reset_recalc_min_top_speed() { recalc_min_top_speed = false; }` -/
def reset_recalc_min_top_speed (c : convoi_t) : convoi_t :=
  { c with recalc_min_top_speed := false }

/-- Source: `bool get_recalc_min_top_speed() const { return recalc_min_top_speed; }` -/
def get_recalc_min_top_speed (c : convoi_t) : Bool :=
  c.recalc_min_top_speed

/-- Source: `const sint32 & get_min_top_speed() const {return min_top_speed;}` -/
def get_min_top_speed (c : convoi_t) : Int :=
  c.min_top_speed

/-- Source: `bool needs_electrification() const { return is_electric; }` -/
def needs_electrification (c : convoi_t) : Bool :=
  c.is_electric

/-- Source: `void set_min_top_speed(sint32 t) {min_top_speed = t;}` -/
def set_min_top_speed (c : convoi_t) (t : Int) : convoi_t :=
  { c with min_top_speed := t }

/-- Source: `void set_speed_limit(sint32 s) { speed_limit = s;}` -/
def set_speed_limit (c : convoi_t) (s : Int) : convoi_t :=
  { c with speed_limit := s }

/-- Source: `void set_akt_speed(sint32 s) { akt_speed = s;}` -/
def set_akt_speed (c : convoi_t) (s : Int) : convoi_t :=
  { c with akt_speed := s }

/-! ### The remaining inline member functions that write the object -/

/-- Source: `void set_schedule_target( koord3d t ) { schedule_target = t; }` -/
def set_schedule_target (c : convoi_t) (t : koord3d) : convoi_t :=
  { c with schedule_target := t }

/-- Two's complement value of a `sint64` result. -/
def wrap_sint64 (v : Int) : Int :=
  (v + 2 ^ 63) % 2 ^ 64 - 2 ^ 63

/-- Source: `void update_friction_weight(sint64 delta_friction_weight) { sum_friction_weight += delta_friction_weight; }` -/
def update_friction_weight (c : convoi_t) (delta_friction_weight : Int) : convoi_t :=
  { c with sum_friction_weight := wrap_sint64 (c.sum_friction_weight + delta_friction_weight) }

/-- Source: `void set_update_line(linehandle_t l) { line_update_pending = l; }` -/
def set_update_line (c : convoi_t) (l : Option Nat) : convoi_t :=
  { c with line_update_pending := l }

/-- Source: `void set_home_depot(koord3d hd) { home_depot = hd; }` -/
def set_home_depot (c : convoi_t) (hd : koord3d) : convoi_t :=
  { c with home_depot := hd }

/-- Source: `void set_next_coupling(uint16 n, uint8 m) { next_coupling_index = n; next_coupling_steps = m; }` -/
def set_next_coupling (c : convoi_t) (n m : Nat) : convoi_t :=
  { c with next_coupling_index := n, next_coupling_steps := m }

/-- Source: `void set_no_load(bool new_no_load) { no_load = new_no_load; }` -/
def set_no_load (c : convoi_t) (new_no_load : Bool) : convoi_t :=
  { c with no_load := new_no_load }

/-- Source: `void set_requested_change_lane(bool x) { requested_change_lane = x; }` -/
def set_requested_change_lane (c : convoi_t) (x : Bool) : convoi_t :=
  { c with requested_change_lane := x }

/-- Source: `void quit_yielding_lane() { yielding_quit_index = -1; must_recalc_speed_limit(); }` -/
def quit_yielding_lane (c : convoi_t) : convoi_t :=
  must_recalc_speed_limit { c with yielding_quit_index := -1 }

/-- Source: `sint32 get_yielding_quit_index() const { return yielding_quit_index; }` -/
def get_yielding_quit_index (c : convoi_t) : Int :=
  c.yielding_quit_index

/-- Source: `bool is_requested_change_lane() const { return requested_change_lane; }` -/
def is_requested_change_lane (c : convoi_t) : Bool :=
  c.requested_change_lane

/-- Source: `uint32 get_lane_affinity_end_index() const { return lane_affinity_end_index; }` -/
def get_lane_affinity_end_index (c : convoi_t) : Nat :=
  c.lane_affinity_end_index

/-- Source: `sint8 get_lane_affinity() const { return lane_affinity; }` -/
def get_lane_affinity (c : convoi_t) : Int :=
  c.lane_affinity

/-- Source: `void reset_lane_affinity() { lane_affinity = 0; }` -/
def reset_lane_affinity (c : convoi_t) : convoi_t :=
  { c with lane_affinity := 0 }

/-- Source: `void set_longblock_signal_judge_request_invalid() { longblock_signal_request.valid = false; };` -/
def set_longblock_signal_judge_request_invalid (c : convoi_t) : convoi_t :=
  { c with longblock_signal_request := { c.longblock_signal_request with valid := false } }

/-- Source: `void remove_crossing_reservation_at(uint16 idx) { crossing_reservation_index.remove_at(idx); }` -/
def remove_crossing_reservation_at (c : convoi_t) (idx : Nat) : Option convoi_t :=
  match vector_tpl.remove_at c.crossing_reservation_index idx with
  | some v => some { c with crossing_reservation_index := v }
  | none => none

/-- Source: `void clear_next_initial_direction() { next_initial_direction = ribi_t::none; }`
(`ribi_t::none` is the empty direction set, 0). -/
def clear_next_initial_direction (c : convoi_t) : convoi_t :=
  { c with next_initial_direction := 0 }

/-- Source: `void set_coupling_done(bool tf) { coupling_done = tf; }` -/
def set_coupling_done (c : convoi_t) (tf : Bool) : convoi_t :=
  { c with coupling_done := tf }

/-- Source: `void set_arrived_time(uint32 t) { arrived_time = t; }` -/
def set_arrived_time (c : convoi_t) (t : Nat) : convoi_t :=
  { c with arrived_time := t }

/-- Source: `void set_time_last_arrived(uint32 t) { time_last_arrived = t; }` -/
def set_time_last_arrived (c : convoi_t) (t : Nat) : convoi_t :=
  { c with time_last_arrived := t }

/-- Source: `void toggle_delay_recovery() { in_delay_recovery = !in_delay_recovery; }` -/
def toggle_delay_recovery (c : convoi_t) : convoi_t :=
  { c with in_delay_recovery := !c.in_delay_recovery }

/-- Source: `void set_owner(player_t* p) { owner = p; }` -/
def set_owner (c : convoi_t) (p : Nat) : convoi_t :=
  { c with owner := p }

/-- Source: `void set_permit_trade(bool b) { permit_trade = b; }` -/
def set_permit_trade (c : convoi_t) (b : Bool) : convoi_t :=
  { c with permit_trade := b }

/-- Source: `bool get_permit_trade() const { return permit_trade; }` -/
def get_permit_trade (c : convoi_t) : Bool :=
  c.permit_trade

/-- Source: `void set_accept_player_nr(uint8 n) { accept_player_nr = n; }` -/
def set_accept_player_nr (c : convoi_t) (n : Nat) : convoi_t :=
  { c with accept_player_nr := n }

/-- Source: `uint8 get_accept_player_nr() const { return accept_player_nr; }` -/
def get_accept_player_nr (c : convoi_t) : Nat :=
  c.accept_player_nr

/-- Source: `player_t * get_owner() const { return owner; }` -/
def get_owner (c : convoi_t) : Nat :=
  c.owner

/-- A convoy with every member zero, empty or unbound and `permit_trade = false`,
`accept_player_nr = 0` (the in-class initialisers); the test input of the
concrete evaluations below. -/
def blank : convoi_t where
  wait_lock := 0
  state := INITIAL
  line_update_pending := none
  recalc_data_front := false
  recalc_data := false
  recalc_speed_limit := false
  recalc_min_top_speed := false
  previous_delta_v := 0
  sum_gear_and_power := 0
  sum_gesamtweight := 0
  sum_friction_weight := 0
  akt_speed_soll := 0
  akt_speed := 0
  next_stop_index := 0
  speed_limit := 0
  brake_speed_soll := 0
  min_top_speed := 0
  sp_soll := 0
  max_record_speed := 0
  record_pos := ⟨0, 0⟩
  steps_driven := 0
  fahr := []
  anz_vehikel := 0
  next_wolke := 0
  route := []
  line := none
  schedule := 0
  schedule_target := ⟨0, 0, 0⟩
  loading_level := 0
  loading_limit := 0
  goods_catg_index := []
  owner := 0
  coupling_convoi := none
  withdraw := false
  no_load := false
  freight_info_resort := false
  has_obsolete := false
  is_electric := false
  freight_info_order := 0
  sum_running_costs := 0
  sum_fixed_costs := 0
  sum_power := 0
  sum_weight := 0
  next_reservation_index := 0
  reserved_tiles := []
  next_coupling_index := 0
  next_coupling_steps := 0
  coupling_done := false
  next_initial_direction := 0
  arrived_time := 0
  scheduled_departure_time := 0
  scheduled_coupling_delay_tolerance := 0
  time_last_arrived := 0
  requested_change_lane := false
  jahresgewinn := 0
  total_distance_traveled := 0
  distance_since_last_stop := 0
  sum_speed_limit := 0
  speedbonus_kmh := 0
  maxspeed_average_count := 0
  alte_richtung := 0
  speed_magnification := 0
  acceleration_magnification := 0
  in_delay_recovery := false
  longblock_signal_request := ⟨false, 0, 0⟩
  financial_history := []
  home_depot := ⟨0, 0, 0⟩
  name_offset := 0
  name_and_id := ""
  crossing_reservation_index := []
  yielding_quit_index := -1
  lane_affinity := 0
  lane_affinity_end_index := 0
  next_cross_lane := false
  request_cross_ticks := 0
  self := none
  permit_trade := false
  accept_player_nr := 0

/-! ### The public inline operations as one type -/

/-- One call of a public inline member function of `convoi_t` that writes the
object, with its arguments (every such function whose body is in the header),
or one write of a caller through the reference or pointer that a public inline
accessor hands out (`access_route()`, `get_next_reservation_index()`,
`get_reserved_tiles()`, `get_finance_history()`, `access_internal_name()`),
with the contents the caller leaves behind. -/
inductive Op where
  | set_schedule_target (t : koord3d)
  | set_state (new_state : Nat)
  | reset_waiting
  | set_akt_speed (s : Int)
  | set_speed_limit (s : Int)
  | set_min_top_speed (t : Int)
  | update_friction_weight (delta : Int)
  | set_update_line (l : Option Nat)
  | set_home_depot (hd : koord3d)
  | unreserve_pos (pos : koord3d)
  | reserve_pos (pos : koord3d)
  | set_next_coupling (n m : Nat)
  | set_no_load (b : Bool)
  | must_recalc_data
  | must_recalc_data_front
  | must_recalc_speed_limit
  | must_recalc_min_top_speed
  | reset_recalc_min_top_speed
  | set_requested_change_lane (x : Bool)
  | quit_yielding_lane
  | reset_lane_affinity
  | set_longblock_signal_judge_request_invalid
  | remove_crossing_reservation_at (idx : Nat)
  | clear_next_initial_direction
  | set_coupling_done (tf : Bool)
  | set_arrived_time (t : Nat)
  | set_time_last_arrived (t : Nat)
  | toggle_delay_recovery
  | set_owner (p : Nat)
  | set_permit_trade (b : Bool)
  | set_accept_player_nr (n : Nat)
  | write_route (r : List koord3d)
  | write_next_reservation_index (n : Nat)
  | write_reserved_tiles (v : vector_tpl koord3d)
  | write_finance_history (h : List (List Int))
  | write_internal_name (name : String)
deriving DecidableEq, Repr

/-- The convoy after one call; `none` when an assertion of the call fails. -/
def Op.apply (c : convoi_t) : Op → Option convoi_t
  | .set_schedule_target t => some (c.set_schedule_target t)
  | .set_state n => c.set_state n
  | .reset_waiting => some c.reset_waiting
  | .set_akt_speed s => some (c.set_akt_speed s)
  | .set_speed_limit s => some (c.set_speed_limit s)
  | .set_min_top_speed t => some (c.set_min_top_speed t)
  | .update_friction_weight d => some (c.update_friction_weight d)
  | .set_update_line l => some (c.set_update_line l)
  | .set_home_depot hd => some (c.set_home_depot hd)
  | .unreserve_pos pos => some (c.unreserve_pos pos)
  | .reserve_pos pos => some (c.reserve_pos pos)
  | .set_next_coupling n m => some (c.set_next_coupling n m)
  | .set_no_load b => some (c.set_no_load b)
  | .must_recalc_data => some c.must_recalc_data
  | .must_recalc_data_front => some c.must_recalc_data_front
  | .must_recalc_speed_limit => some c.must_recalc_speed_limit
  | .must_recalc_min_top_speed => some c.must_recalc_min_top_speed
  | .reset_recalc_min_top_speed => some c.reset_recalc_min_top_speed
  | .set_requested_change_lane x => some (c.set_requested_change_lane x)
  | .quit_yielding_lane => some c.quit_yielding_lane
  | .reset_lane_affinity => some c.reset_lane_affinity
  | .set_longblock_signal_judge_request_invalid =>
      some c.set_longblock_signal_judge_request_invalid
  | .remove_crossing_reservation_at idx => c.remove_crossing_reservation_at idx
  | .clear_next_initial_direction => some c.clear_next_initial_direction
  | .set_coupling_done tf => some (c.set_coupling_done tf)
  | .set_arrived_time t => some (c.set_arrived_time t)
  | .set_time_last_arrived t => some (c.set_time_last_arrived t)
  | .toggle_delay_recovery => some c.toggle_delay_recovery
  | .set_owner p => some (c.set_owner p)
  | .set_permit_trade b => some (c.set_permit_trade b)
  | .set_accept_player_nr n => some (c.set_accept_player_nr n)
  | .write_route r => some { c with route := r }
  | .write_next_reservation_index n => some { c with next_reservation_index := n }
  | .write_reserved_tiles v => some { c with reserved_tiles := v }
  | .write_finance_history h => some { c with financial_history := h }
  | .write_internal_name name => some { c with name_and_id := name }

end convoi_t

/-! ## The convoys of the world -/

/-- The convoys of the world; the handle `some i` names the `i`-th one. -/
abbrev World := List convoi_t

namespace World

/-- Write convoy `i` (nothing happens for a number that names no convoy). -/
def put (w : World) (i : Nat) (c : convoi_t) : World :=
  w.set i c

/-- Tile `p` lies in the claimed set `reserved_tiles` of convoy `i`. -/
def holds (w : World) (i : Nat) (p : koord3d) : Prop :=
  ∃ c : convoi_t, w[i]? = some c ∧ p ∈ c.reserved_tiles

/-- The coupling links point both ways: whenever convoy `a` names `b` as its
`coupling_convoi`, `b` names `a`. -/
def coupling_symmetric (w : World) : Prop :=
  ∀ (a b : Nat) (ca : convoi_t), w[a]? = some ca → ca.get_coupling_convoi = some b →
    ∃ cb : convoi_t, w[b]? = some cb ∧ cb.get_coupling_convoi = some a

/-- The coupling link of convoy `j`: `none` when `j` names no convoy. -/
def link (w : World) (j : Nat) : Option convoihandle_t :=
  (w[j]?).map convoi_t.get_coupling_convoi

/-- Modelled from the spec: `convoi_t::couple_convoi` is only declared in
simconvoi.h, its body is not among the sources. Spec 4.4: the call is "valid
only if both convoys are in compatible states (neither already coupled,
compatible waytype) and the requester can reach the target's position; on
success the follower's coupling_convoi points to the leader, the leader gains a
symmetric back-reference, and the follower transitions to COUPLED"; a rejected
attempt leaves "both convoys independent, no partial state change". `self` is
the requesting follower, `target` the leader; `compatible_waytype` and
`can_reach` are the answers of the vehicles and of the router. -/
def couple_convoi (w : World) (self : Nat) (target : convoihandle_t)
    (compatible_waytype can_reach : Bool) : World × Bool :=
  match w[self]?, target with
  | some a, some t =>
    match w[t]? with
    | some b =>
      if t ≠ self ∧ a.coupling_convoi.is_bound = false ∧ b.coupling_convoi.is_bound = false
          ∧ a.is_coupled = false ∧ b.is_coupled = false
          ∧ compatible_waytype = true ∧ can_reach = true then
        ((w.put self { a with coupling_convoi := some t, state := convoi_t.COUPLED }).put t
          { b with coupling_convoi := some self }, true)
      else (w, false)
    | none => (w, false)
  | _, _ => (w, false)

/-- One party of a link after the link is cut: the handle is unbound, and a
party that was in a coupled state runs its own state machine again from
`resume`. -/
def detach (c : convoi_t) (resume : Nat) : convoi_t :=
  { c with coupling_convoi := none, state := if c.is_coupled then resume else c.state }

/-- No convoy other than `i` has `p` in its claimed set (the test a claim
makes). -/
def tile_free (w : World) (i : Nat) (p : koord3d) : Bool :=
  (List.range w.length).all fun j =>
    decide (j = i) ||
      match w[j]? with
      | some c => !vector_tpl.is_contained c.reserved_tiles p
      | none => true

/-- Modelled from the spec: the claiming walk of Block Reservation (spec 4.2,
the code is not among the sources). Convoy `i` attempts to claim the tiles in
order; a "claim succeeds only if no other convoy currently holds that tile" and
is then recorded in the claimed tiles; "on first failure" the walk stops "at
the last successfully claimed tile". The result is the world and the number of
tiles claimed. -/
def claim_tiles (w : World) (i : Nat) : List koord3d → World × Nat
  | [] => (w, 0)
  | p :: ps =>
    match w[i]? with
    | none => (w, 0)
    | some c =>
      if w.tile_free i p = true then
        ((claim_tiles (w.put i (c.reserve_pos p)) i ps).1,
          (claim_tiles (w.put i (c.reserve_pos p)) i ps).2 + 1)
      else (w, 0)

/-- Modelled from the spec: `rail_vehicle_t::block_reserver` is only declared
in simvehicle.h, its body is not among the sources. Spec 4.2:
`block_reserver(route, start_index, reserve|release)` "walks the route from
start_index, attempting to claim each tile's block up to the next stopping
signal or a configurable lookahead count" (`count` tiles here). "Claim succeeds
only if no other convoy currently holds that tile. On success, extends
next_reservation_index and records claimed tiles; on first failure, stops
extension at the last successfully claimed tile and reports the failing index".
After a claim `next_reservation_index` is the route index of the last tile
claimed (simconvoi.h: "including this route_index, the route was reserved the
last time"). In release mode the walked tiles are taken out of the claimed
tiles. The result is the world, whether every walked tile was handled, and the
index behind the last tile handled (the failing index of a refused claim). -/
def block_reserver (w : World) (i : Nat) (start_index count : Nat) (reserve : Bool) :
    World × Bool × Nat :=
  match w[i]? with
  | none => (w, false, start_index)
  | some c =>
    if reserve = true then
      match (w.claim_tiles i ((c.route.drop start_index).take count)).1[i]? with
      | none => (w, false, start_index)
      | some c1 =>
        ((w.claim_tiles i ((c.route.drop start_index).take count)).1.put i
            { c1 with next_reservation_index :=
                if (w.claim_tiles i ((c.route.drop start_index).take count)).2 = 0 then
                  c1.next_reservation_index
                else
                  start_index
                    + (w.claim_tiles i ((c.route.drop start_index).take count)).2 - 1 },
          decide ((w.claim_tiles i ((c.route.drop start_index).take count)).2
            = ((c.route.drop start_index).take count).length),
          start_index + (w.claim_tiles i ((c.route.drop start_index).take count)).2)
    else
      (w.put i (((c.route.drop start_index).take count).foldl convoi_t.unreserve_pos c),
        true, start_index + ((c.route.drop start_index).take count).length)

/-- Modelled from the spec: `convoi_t::uncouple_convoi` is only declared in
simconvoi.h, its body is not among the sources. Spec 4.4 and 8: it "severs the
link, restoring independent state machines to both parties and re-issuing
independent reservations for the follower's current position", and "uncoupling
clears both simultaneously"; it returns the handle of the former partner. The
follower is the party that was in a coupled state (`self` when it was, the
partner otherwise); the state it resumes in is not named by the spec and is the
parameter `resume`; `position` are the tiles of the follower's current
position, which it claims through Block Reservation once the link is cut. -/
def uncouple_convoi (w : World) (self : Nat) (resume : Nat) (position : List koord3d) :
    World × convoihandle_t :=
  match w[self]? with
  | none => (w, none)
  | some a =>
    match a.coupling_convoi with
    | none => (w, none)
    | some p =>
      match (w.put self (detach a resume))[p]? with
      | none =>
        (((w.put self (detach a resume)).claim_tiles
            (if a.is_coupled = true then self else p) position).1, some p)
      | some b =>
        ((((w.put self (detach a resume)).put p (detach b resume)).claim_tiles
            (if a.is_coupled = true then self else p) position).1, some p)

end World

/-- One operation on the world: a public inline member function called on
convoy `i` (or a write through a reference it hands out), a walk of
`block_reserver` for convoy `i`, a coupling request, or an uncoupling. -/
inductive WorldOp where
  | call (i : Nat) (op : convoi_t.Op)
  | block_reserver (i : Nat) (start_index count : Nat) (reserve : Bool)
  | couple (self : Nat) (target : convoihandle_t) (compatible_waytype can_reach : Bool)
  | uncouple (self : Nat) (resume : Nat) (position : List koord3d)

namespace World

/-- The world after one operation; `none` when the operation stops on a failed
assertion or is called on a number that names no convoy. -/
def step (w : World) : WorldOp → Option World
  | .call i op =>
    match w[i]? with
    | none => none
    | some c =>
      match op.apply c with
      | none => none
      | some c' => some (w.put i c')
  | .block_reserver i start_index count reserve =>
    some (w.block_reserver i start_index count reserve).1
  | .couple self target cw cr => some (w.couple_convoi self target cw cr).1
  | .uncouple self resume position => some (w.uncouple_convoi self resume position).1

/-- The world after a sequence of operations. -/
def run : World → List WorldOp → Option World
  | w, [] => some w
  | w, op :: ops =>
    match w.step op with
    | none => none
    | some w' => run w' ops

end World

/-! ## The convoy detail window (`gui/convoi_detail_t.cc`) -/

/-- The component a `gui_action_creator_t *comp` points to: one of the members
of the window that are compared against, or anything else. -/
inductive gui_component where
  | sale_button
  | withdraw_button
  | copy_convoi_button
  | trade_convoi_button
  | trade_player_num
  | other (address : Nat)
deriving DecidableEq, Repr

/-- Modelled from the spec: `simworld.h` is not among the sources; what
`convoi_detail_t` asks of `welt`. `get_player n` is the `player_t*` of player
number `n` (`none` for a null pointer). -/
structure karte_t where
  get_player : Nat → Option Nat
  active_player : Nat
  active_player_nr : Nat

/-- What `convoi_detail_t::action_triggered` reads of the window
(`convoi_detail_t.h` is not among the sources): the convoy handle, the array
`viewable_players` and `trade_player_num.get_selection()`. -/
structure convoi_detail_t where
  cnv : convoihandle_t
  viewable_players : List Nat
  trade_player_num_selection : Int

/-- What `action_triggered` does to the outside: a convoy tool command
(`cnv->call_convoi_tool(function, extra)`, `extra = none` for `NULL`) or
`welt->set_copy_convoi(cnv)`. -/
inductive gui_effect where
  | call_convoi_tool (cnv : Nat) (function : Char) (extra : Option String)
  | set_copy_convoi (cnv : convoihandle_t)
deriving DecidableEq, Repr

namespace convoi_detail_t

/-- The array read `viewable_players[i]`; `none` outside the array. -/
def viewable_player (g : convoi_detail_t) (i : Int) : Option Nat :=
  if 0 ≤ i then g.viewable_players[i.toNat]? else none

/-- Source: `bool convoi_detail_t::action_triggered(gui_action_creator_t *comp, value_t)`:
the commands issued, in order, and the return value. `deref` gives the convoy a
bound handle stands for; the result is `none` when `viewable_players` is read
outside its bounds. -/
def action_triggered (welt : karte_t) (deref : Nat → convoi_t) (g : convoi_detail_t)
    (comp : gui_component) : Option (List gui_effect × Bool) :=
  match g.cnv with
  | some id =>
    if comp = .sale_button then
      some ([.call_convoi_tool id 'x' none], true)
    else if comp = .withdraw_button then
      some ([.call_convoi_tool id 'w' none], true)
    else if comp = .copy_convoi_button then
      some ([.set_copy_convoi g.cnv], true)
    else if comp = .trade_convoi_button then
      if (deref id).get_owner = welt.active_player then
        match g.viewable_player g.trade_player_num_selection with
        | none => none
        | some nr =>
          if (welt.get_player nr).isSome then
            some ([.call_convoi_tool id 'a' (some (toString nr))], true)
          else
            some ([], false)
      else if welt.active_player_nr = (deref id).get_accept_player_nr then
        some ([.call_convoi_tool id 'o' none], true)
      else
        some ([], false)
    else
      some ([], false)
  | none => some ([], false)

end convoi_detail_t

/-! ## Sequences of reservation calls -/

/-- One call of `reserve_pos` or `unreserve_pos` with its argument. -/
inductive reservation_call where
  | reserve (pos : koord3d)
  | unreserve (pos : koord3d)
deriving DecidableEq, Repr

/-- The convoy after a sequence of `reserve_pos` and `unreserve_pos` calls, in
order. -/
def convoi_t.reservation_calls (c : convoi_t) : List reservation_call → convoi_t
  | [] => c
  | .reserve pos :: calls => (c.reserve_pos pos).reservation_calls calls
  | .unreserve pos :: calls => (c.unreserve_pos pos).reservation_calls calls

/-! ## Vehicles (`vehicle/simvehicle.h`) -/

/-- Two's complement value of an `int` (`sint32`) result. -/
def wrap_sint32 (v : Int) : Int :=
  (v + 2 ^ 31) % 2 ^ 32 - 2 ^ 31

/-- Modelled from the spec: `descriptor/vehicle_desc.h` is not among the
sources; what `vehicle_t` reads of the shared immutable description ("power,
weight, capacity"): the running cost, the capacity and the freight type (a
`goods_desc_t*`). -/
structure vehicle_desc_t where
  running_cost : Int
  capacity : Nat
  freight_type : Nat
deriving DecidableEq, Repr

/-- The data members of `vehicle_base_t` and `vehicle_t` that the inline member
functions below read; `waytype` is the answer of the virtual `get_waytype()`. -/
structure vehicle_t where
  image : Nat
  purchase_time : Int
  sum_weight : Nat
  speed_limit : Int
  current_friction : Int
  route_index : Nat
  total_freight : Nat
  desc : vehicle_desc_t
  waytype : Nat
deriving DecidableEq, Repr

namespace vehicle_t

end vehicle_t

/-- The data members of `air_vehicle_t` on top of those of `vehicle_t`; `state`
is the `flight_state`. -/
structure air_vehicle_t extends vehicle_t where
  state : Nat
  flying_height : Int
  target_height : Int
  search_for_stop : Nat
  touchdown : Nat
  takeoff : Nat
  altitude_level : Int
  landing_distance : Int
deriving DecidableEq, Repr

namespace air_vehicle_t

/-! ### `enum flight_state` -/

def taxiing : Nat := 0
def departing : Nat := 1
def flying : Nat := 2
def landing : Nat := 3
def looking_for_parking : Nat := 4
def circling : Nat := 5
def taxiing_to_halt : Nat := 6

/-- Source: `bool is_on_ground() const { return flying_height==0  &&  !(state==circling  ||  state==flying); }` -/
def is_on_ground (v : air_vehicle_t) : Bool :=
  decide (v.flying_height = 0) && !(decide (v.state = circling) || decide (v.state = flying))

/-- Source: `bool is_flying() const OVERRIDE { return !is_on_ground(); }` -/
def is_flying (v : air_vehicle_t) : Bool :=
  !v.is_on_ground

/-- Source: `image_id get_image() const OVERRIDE {return !is_on_ground() ? IMG_EMPTY : image;}`
(`IMG_EMPTY` is a constant of a header that is not among the sources). -/
def get_image (IMG_EMPTY : Nat) (v : air_vehicle_t) : Nat :=
  if !v.is_on_ground then IMG_EMPTY else v.image

/-- Source: `image_id get_outline_image() const OVERRIDE {return !is_on_ground() ? image : IMG_EMPTY;}` -/
def get_outline_image (IMG_EMPTY : Nat) (v : air_vehicle_t) : Nat :=
  if !v.is_on_ground then v.image else IMG_EMPTY

end air_vehicle_t

/-! ## The vehicle entry of the detail window (`gui_vehicleinfo_t`) -/

namespace gui_vehicleinfo_t

end gui_vehicleinfo_t

/-! ## More inline member functions of `convoi_t` -/

namespace convoi_t

/-- Source: `uint16 get_next_coupling_index() const {return next_coupling_index;}` -/
def get_next_coupling_index (c : convoi_t) : Nat :=
  c.next_coupling_index

/-- Source: `uint8 get_next_coupling_steps() const {return next_coupling_steps;}` -/
def get_next_coupling_steps (c : convoi_t) : Nat :=
  c.next_coupling_steps

/-- Source: `bool is_coupling_done() const { return coupling_done; }` -/
def is_coupling_done (c : convoi_t) : Bool :=
  c.coupling_done

/-- Source: `bool get_withdraw() const { return withdraw; }` -/
def get_withdraw (c : convoi_t) : Bool :=
  c.withdraw

/-- Source: `uint8 get_vehicle_count() const { return anz_vehikel; }` -/
def get_vehicle_count (c : convoi_t) : Nat :=
  c.anz_vehikel

/-- The array read `fahr[i]` for an `int` index; `none` outside the array. -/
def fahr_at (c : convoi_t) (i : Int) : Option Nat :=
  if 0 ≤ i then c.fahr[i.toNat]? else none

/-- Source: `vehicle_t* get_vehikel(uint16 i) const { return fahr[i]; }` -/
def get_vehikel (c : convoi_t) (i : Nat) : Option Nat :=
  c.fahr_at i

/-- Source: `vehicle_t* front() const { return fahr[0]; }` -/
def front (c : convoi_t) : Option Nat :=
  c.fahr_at 0

/-- Source: `vehicle_t* back() const { return fahr[anz_vehikel - 1]; }` -/
def back (c : convoi_t) : Option Nat :=
  c.fahr_at ((c.anz_vehikel : Int) - 1)

/-- Source: `sint64 get_fixed_cost() const { return -sum_fixed_costs; }`
(`sum_fixed_costs` is a `sint32`: the negation is done in `int`, its result is
then widened to `sint64`). -/
def get_fixed_cost (c : convoi_t) : Int :=
  wrap_sint32 (-c.sum_fixed_costs)

/-- Source: `sint32 get_running_cost() const { return -sum_running_costs; }` -/
def get_running_cost (c : convoi_t) : Int :=
  wrap_sint32 (-c.sum_running_costs)

end convoi_t

/-! ## `air_vehicle_t::calc_altitude_level` -/

/-- Two's complement value of a `sint16` result. -/
def wrap_sint16 (v : Int) : Int :=
  (v + 2 ^ 15) % 2 ^ 16 - 2 ^ 15

/-- Source: `void calc_altitude_level(sint32 speed_limit_kmh)` of `air_vehicle_t`:

    altitude_level = max(5, speed_limit_kmh/33);
    altitude_level = min(altitude_level, 30);
    landing_distance = altitude_level - 2;

`max` and `min` work on `int`; every assignment stores into a `sint16`
member. -/
def air_vehicle_t.calc_altitude_level (v : air_vehicle_t) (speed_limit_kmh : Int) :
    air_vehicle_t :=
  { v with
    altitude_level :=
      wrap_sint16 (min (wrap_sint16 (max 5 (Int.tdiv speed_limit_kmh 33))) 30),
    landing_distance :=
      wrap_sint16
        (wrap_sint16 (min (wrap_sint16 (max 5 (Int.tdiv speed_limit_kmh 33))) 30) - 2) }

/-! ## `convoi_detail_t::draw`, `init` and `update_labels` -/

/-- Modelled from the spec: `player/simplay.h` is not among the sources; what
the detail window reads of a player: its number and whether it is locked. -/
structure player_t where
  player_nr : Nat
  locked : Bool
deriving DecidableEq, Repr

/-- What `convoi_detail_t::draw` sets on the buttons of the window. -/
structure button_states where
  sale_button_enabled : Bool
  withdraw_button_enabled : Bool
  withdraw_button_pressed : Bool
  trade_convoi_button_enabled : Bool
  trade_convoi_button_text : String
  trade_convoi_button_tooltip : String
deriving DecidableEq, Repr

namespace convoi_detail_t

/-- Source: `void convoi_detail_t::draw(scr_coord offset)`, the button part:

    const bool selling_allowed = cnv->get_owner()==welt->get_active_player()  &&  !welt->get_active_player()->is_locked()  &&  !cnv->get_coupling_convoi().is_bound();
    sale_button.enable(selling_allowed);
    withdraw_button.enable(selling_allowed  &&  !cnv->is_coupled());
    withdraw_button.pressed = cnv->get_withdraw();
    bool is_owner = cnv->get_owner()==welt->get_active_player();
    trade_convoi_button.enable(is_owner || (cnv->get_permit_trade() && welt->get_active_player_nr() == cnv->get_accept_player_nr()));

`cnv` is the convoy the handle of the window stands for, `player` the object a
`player_t*` points to. -/
def draw (welt : karte_t) (player : Nat → player_t) (cnv : convoi_t) : button_states :=
  { sale_button_enabled :=
      decide (cnv.get_owner = welt.active_player) && !(player welt.active_player).locked
        && !cnv.get_coupling_convoi.is_bound,
    withdraw_button_enabled :=
      (decide (cnv.get_owner = welt.active_player) && !(player welt.active_player).locked
        && !cnv.get_coupling_convoi.is_bound) && !cnv.is_coupled,
    withdraw_button_pressed := cnv.get_withdraw,
    trade_convoi_button_enabled :=
      decide (cnv.get_owner = welt.active_player)
        || (cnv.get_permit_trade
          && decide (welt.active_player_nr = cnv.get_accept_player_nr)),
    trade_convoi_button_text :=
      if cnv.get_owner = welt.active_player then
        (if cnv.get_permit_trade then "Permitted" else "Permit Trade")
      else "Accept Trade",
    trade_convoi_button_tooltip :=
      if cnv.get_owner = welt.active_player then "Permit trade this convoi"
      else "Accept trade this convoi" }

/-- Source: the player loop of `convoi_detail_t::init`:

    viewable_players[ 0 ] = 0;
    for(  int np = 0, count = 0;  np < MAX_PLAYER_COUNT;  np++  ) {
      if(  welt->get_player( np )  ) {
        trade_player_num.new_component<...>(...);
        viewable_players[ count++ ] = np;
      }
    }

The result is the array and `count`, the number of list entries made.
`MAX_PLAYER_COUNT` is a constant of a header that is not among the sources,
`old` the prior contents of the array. -/
def init_viewable_players (welt : karte_t) (MAX_PLAYER_COUNT : Nat) (old : List Nat) :
    List Nat × Nat :=
  (List.range MAX_PLAYER_COUNT).foldl
    (fun acc np =>
      if (welt.get_player np).isSome then (acc.1.set acc.2 np, acc.2 + 1) else acc)
    (old.set 0 0, 0)

/-- Source: the argument of `trade_player_num.set_selection(...)` in `init`:
`cnv->get_permit_trade() ? cnv->get_accept_player_nr() : cnv->get_owner()->get_player_nr()`. -/
def init_selection (player : Nat → player_t) (cnv : convoi_t) : Int :=
  if cnv.get_permit_trade then (cnv.get_accept_player_nr : Int)
  else ((player cnv.get_owner).player_nr : Int)

/-- Source: `void convoi_detail_t::init(convoihandle_t cnv)`, what it leaves in
the members that `action_triggered` reads: the handle, the array
`viewable_players` and the selected entry of `trade_player_num` (the list has
`count` entries, and the selection made here is one of them in the inputs
evaluated below). -/
def init (welt : karte_t) (player : Nat → player_t) (deref : Nat → convoi_t)
    (MAX_PLAYER_COUNT : Nat) (old : List Nat) (cnv : Nat) : convoi_detail_t :=
  { cnv := some cnv,
    viewable_players := (init_viewable_players welt MAX_PLAYER_COUNT old).1,
    trade_player_num_selection := init_selection player (deref cnv) }

/-- Source: `void convoi_detail_t::update_labels()`: the vehicle indices it
reads of the convoy. The only read is `cnv->get_vehikel( 0 )` behind
`cnv->get_vehicle_count()>0  &&`. -/
def update_labels_vehicle_reads (cnv : convoi_t) : List Nat :=
  if cnv.get_vehicle_count > 0 then [0] else []

/-- Source: `void convoi_detail_t::init(convoihandle_t cnv)`: the vehicle
indices it reads of the convoy, in order: `cnv->front()` for `cnv_kmh` (index
0, not behind any test), `cnv->get_vehikel(veh)` for every
`veh < cnv->get_vehicle_count()`, and the reads of `update_labels()`. -/
def init_vehicle_reads (cnv : convoi_t) : List Nat :=
  0 :: (List.range cnv.get_vehicle_count ++ update_labels_vehicle_reads cnv)

end convoi_detail_t

/-! # Theorems -/

open convoi_t convoi_detail_t

/-! ## Helper lemmas on `vector_tpl` -/

theorem vector_tpl.is_contained_iff {α : Type} [DecidableEq α] (v : vector_tpl α) (elem : α) :
    vector_tpl.is_contained v elem = true ↔ elem ∈ v := by
  induction v with
  | nil => simp [vector_tpl.is_contained]
  | cons x xs ih =>
    by_cases h : x = elem
    · simp [vector_tpl.is_contained, h]
    · have h' : ¬ elem = x := fun e => h e.symm
      simp [vector_tpl.is_contained, h, h', ih]

theorem vector_tpl.mem_append_unique {α : Type} [DecidableEq α] (v : vector_tpl α)
    (elem q : α) : q ∈ vector_tpl.append_unique v elem ↔ q ∈ v ∨ q = elem := by
  unfold vector_tpl.append_unique
  by_cases h : vector_tpl.is_contained v elem = true
  · have hm := (vector_tpl.is_contained_iff v elem).1 h
    simp only [h, if_true]
    constructor
    · exact fun hq => Or.inl hq
    · rintro (hq | rfl)
      · exact hq
      · exact hm
  · simp [h, vector_tpl.append]

theorem vector_tpl.remove_split {α : Type} [DecidableEq α] (v : vector_tpl α) (elem : α)
    (h : elem ∈ v) :
    ∃ l1 l2 : List α, v = l1 ++ elem :: l2 ∧ elem ∉ l1 ∧ vector_tpl.remove v elem = l1 ++ l2 := by
  induction v with
  | nil => simp at h
  | cons x xs ih =>
    by_cases hx : x = elem
    · exact ⟨[], xs, by simp [hx], by simp, by simp [vector_tpl.remove, hx]⟩
    · have hmem : elem ∈ xs := by
        rcases List.mem_cons.1 h with h1 | h1
        · exact absurd h1.symm hx
        · exact h1
      obtain ⟨l1, l2, h1, h2, h3⟩ := ih hmem
      refine ⟨x :: l1, l2, by simp [h1], ?_, by simp [vector_tpl.remove, hx, h3]⟩
      intro hin
      rcases List.mem_cons.1 hin with h4 | h4
      · exact hx h4.symm
      · exact h2 h4

theorem vector_tpl.remove_of_not_mem {α : Type} [DecidableEq α] (v : vector_tpl α) (elem : α)
    (h : elem ∉ v) : vector_tpl.remove v elem = v := by
  induction v with
  | nil => rfl
  | cons x xs ih =>
    have hx : ¬ x = elem := fun e => h (by simp [e])
    have hxs : elem ∉ xs := fun e => h (List.mem_cons_of_mem _ e)
    simp [vector_tpl.remove, hx, ih hxs]

theorem vector_tpl.mem_of_mem_remove {α : Type} [DecidableEq α] (v : vector_tpl α)
    (elem q : α) (h : q ∈ vector_tpl.remove v elem) : q ∈ v := by
  induction v with
  | nil => simp [vector_tpl.remove] at h
  | cons x xs ih =>
    by_cases hx : x = elem
    · simp only [vector_tpl.remove, hx, if_true] at h
      exact List.mem_cons_of_mem _ h
    · simp only [vector_tpl.remove, hx, if_false] at h
      rcases List.mem_cons.1 h with h1 | h1
      · simp [h1]
      · exact List.mem_cons_of_mem _ (ih h1)

/-! ## C2: which tile `unreserve_pos` releases -/

/-- C2, counterexample: with the claimed tiles (1,0,0), (2,0,0) in claim order,
`unreserve_pos((2,0,0))` releases (2,0,0), which is not the oldest tile, and
keeps the oldest tile (1,0,0). -/
theorem unreserve_pos_releases_younger_tile :
    ({ blank with reserved_tiles := [⟨1, 0, 0⟩, ⟨2, 0, 0⟩] } : convoi_t).reserved_tiles.head?
        = some ⟨1, 0, 0⟩
    ∧ (unreserve_pos { blank with reserved_tiles := [⟨1, 0, 0⟩, ⟨2, 0, 0⟩] }
        ⟨2, 0, 0⟩).reserved_tiles = [⟨1, 0, 0⟩]
    ∧ (⟨2, 0, 0⟩ : koord3d) ≠ ⟨1, 0, 0⟩ := by
  refine ⟨rfl, ?_, by decide⟩
  decide

/-- C2, amended: `unreserve_pos(pos)` releases the tile its caller names, not
the oldest one: when `pos` is claimed, its first occurrence is taken out of
`reserved_tiles` wherever it stands and the other tiles keep their order; when
`pos` is not claimed nothing is released; the released tile is the oldest one
when `pos` is the first element. -/
theorem unreserve_pos_releases_named_tile (c : convoi_t) (pos : koord3d) :
    (pos ∈ c.reserved_tiles →
      ∃ older younger : List koord3d,
        c.reserved_tiles = older ++ pos :: younger ∧ pos ∉ older
        ∧ (c.unreserve_pos pos).reserved_tiles = older ++ younger)
    ∧ (pos ∉ c.reserved_tiles → (c.unreserve_pos pos).reserved_tiles = c.reserved_tiles)
    ∧ (∀ rest : List koord3d, c.reserved_tiles = pos :: rest →
        (c.unreserve_pos pos).reserved_tiles = rest) := by
  refine ⟨fun h => vector_tpl.remove_split _ _ h,
    fun h => vector_tpl.remove_of_not_mem _ _ h, ?_⟩
  intro rest h
  simp [unreserve_pos, h, vector_tpl.remove]

/-- C2, the amended statement at a concrete convoy: releasing the middle one of
three claimed tiles. -/
theorem unreserve_pos_releases_named_tile_witness :
    ∃ older younger : List koord3d,
      ({ blank with reserved_tiles := [⟨1, 0, 0⟩, ⟨2, 0, 0⟩, ⟨3, 0, 0⟩] } : convoi_t).reserved_tiles
          = older ++ (⟨2, 0, 0⟩ : koord3d) :: younger
      ∧ (⟨2, 0, 0⟩ : koord3d) ∉ older
      ∧ (unreserve_pos { blank with reserved_tiles := [⟨1, 0, 0⟩, ⟨2, 0, 0⟩, ⟨3, 0, 0⟩] }
          ⟨2, 0, 0⟩).reserved_tiles = older ++ younger :=
  (unreserve_pos_releases_named_tile
    { blank with reserved_tiles := [⟨1, 0, 0⟩, ⟨2, 0, 0⟩, ⟨3, 0, 0⟩] } ⟨2, 0, 0⟩).1 (by decide)

/-! ## C4 to C6: the state -/

/-- C4: `is_waiting()` is true exactly in the six tiered waiting and starting
states, for every stored state value; in particular it is false in
SELF_DESTRUCT, whose value 12 lies inside the tested range 8..14. -/
theorem is_waiting_iff_tiered (c : convoi_t) :
    (c.is_waiting = true ↔
      c.state = WAITING_FOR_CLEARANCE ∨ c.state = WAITING_FOR_CLEARANCE_ONE_MONTH
      ∨ c.state = WAITING_FOR_CLEARANCE_TWO_MONTHS ∨ c.state = CAN_START
      ∨ c.state = CAN_START_ONE_MONTH ∨ c.state = CAN_START_TWO_MONTHS)
    ∧ (WAITING_FOR_CLEARANCE ≤ SELF_DESTRUCT ∧ SELF_DESTRUCT ≤ CAN_START_TWO_MONTHS)
    ∧ (c.state = SELF_DESTRUCT → c.is_waiting = false) := by
  refine ⟨?_, by decide, ?_⟩
  · simp only [is_waiting, Bool.and_eq_true, decide_eq_true_eq, WAITING_FOR_CLEARANCE,
      CAN_START_TWO_MONTHS, SELF_DESTRUCT, WAITING_FOR_CLEARANCE_ONE_MONTH,
      WAITING_FOR_CLEARANCE_TWO_MONTHS, CAN_START, CAN_START_ONE_MONTH]
    omega
  · intro h
    simp [is_waiting, h, SELF_DESTRUCT]

/-- C4 at concrete convoys: waiting in CAN_START_TWO_MONTHS, not waiting in
SELF_DESTRUCT. -/
theorem is_waiting_iff_tiered_witness :
    is_waiting { blank with state := CAN_START_TWO_MONTHS } = true
    ∧ is_waiting { blank with state := SELF_DESTRUCT } = false :=
  ⟨(is_waiting_iff_tiered { blank with state := CAN_START_TWO_MONTHS }).1.2
      (Or.inr (Or.inr (Or.inr (Or.inr (Or.inr rfl))))),
    (is_waiting_iff_tiered { blank with state := SELF_DESTRUCT }).2.2 rfl⟩

/-- C5, counterexample: a convoy in SELF_DESTRUCT leaves that state under
`reset_waiting()` (to WAITING_FOR_CLEARANCE) and under `set_state(DRIVING)`. -/
theorem self_destruct_is_left :
    ({ blank with state := SELF_DESTRUCT } : convoi_t).state = SELF_DESTRUCT
    ∧ (reset_waiting { blank with state := SELF_DESTRUCT }).state = WAITING_FOR_CLEARANCE
    ∧ WAITING_FOR_CLEARANCE ≠ SELF_DESTRUCT
    ∧ (set_state { blank with state := SELF_DESTRUCT } DRIVING).map convoi_t.state
        = some DRIVING
    ∧ DRIVING ≠ SELF_DESTRUCT := by
  refine ⟨rfl, rfl, by decide, rfl, by decide⟩

/-- C5, amended: neither state-writing operation looks at the prior state. From
every state, SELF_DESTRUCT included, `reset_waiting()` leads to
WAITING_FOR_CLEARANCE and `set_state(n)` with `n < MAX_STATES` leads to state
`n`, so a convoy is in SELF_DESTRUCT after `set_state(n)` exactly when `n` is
SELF_DESTRUCT, and never after `reset_waiting()`. -/
theorem self_destruct_overwritten (c : convoi_t) :
    c.reset_waiting.state = WAITING_FOR_CLEARANCE
    ∧ c.reset_waiting.state ≠ SELF_DESTRUCT
    ∧ ∀ n, n < MAX_STATES →
        ∃ c', c.set_state n = some c' ∧ c'.state = n
          ∧ (c'.state = SELF_DESTRUCT ↔ n = SELF_DESTRUCT) := by
  refine ⟨rfl, by simp [reset_waiting, WAITING_FOR_CLEARANCE, SELF_DESTRUCT],
    fun n hn => ⟨{ c with state := n }, ?_, rfl, Iff.rfl⟩⟩
  simp [set_state, hn]

/-- C5, the amended statement at a concrete convoy in SELF_DESTRUCT. -/
theorem self_destruct_overwritten_witness :
    ({ blank with state := SELF_DESTRUCT } : convoi_t).state = SELF_DESTRUCT
    ∧ (reset_waiting { blank with state := SELF_DESTRUCT }).state = WAITING_FOR_CLEARANCE
    ∧ ∃ c', set_state { blank with state := SELF_DESTRUCT } LOADING = some c'
        ∧ c'.state = LOADING ∧ (c'.state = SELF_DESTRUCT ↔ LOADING = SELF_DESTRUCT) :=
  ⟨rfl, (self_destruct_overwritten { blank with state := SELF_DESTRUCT }).1,
    (self_destruct_overwritten { blank with state := SELF_DESTRUCT }).2.2 LOADING
      (by decide)⟩

/-- C6: for every `new_state < MAX_STATES` (= 20) `set_state` succeeds,
`get_state()` then returns `new_state` and every other member is unchanged; for
every `new_state >= MAX_STATES` the assertion fails and no state is stored. -/
theorem set_state_closed (c : convoi_t) (new_state : Nat) :
    MAX_STATES = 20
    ∧ (new_state < MAX_STATES →
        ∃ c', c.set_state new_state = some c' ∧ c'.get_state = (new_state : Int)
          ∧ c' = { c with state := new_state })
    ∧ (MAX_STATES ≤ new_state → c.set_state new_state = none) := by
  refine ⟨rfl, fun h => ⟨{ c with state := new_state }, ?_, rfl, rfl⟩, fun h => ?_⟩
  · simp [set_state, h]
  · simp [set_state, Nat.not_lt.2 h]

/-- C6 at concrete arguments: state 19 is stored, state 20 is refused. -/
theorem set_state_closed_witness :
    (∃ c', set_state blank 19 = some c' ∧ c'.get_state = 19
        ∧ c' = { blank with state := 19 })
    ∧ set_state blank 20 = none :=
  ⟨(set_state_closed blank 19).2.1 (by decide), (set_state_closed blank 20).2.2 (by decide)⟩

/-! ## C9 and C10: the dirty flags -/

/-- C9: each of `must_recalc_data`, `must_recalc_data_front`,
`must_recalc_speed_limit` and `must_recalc_min_top_speed` sets its own flag to
true and leaves the other three flags and `previous_delta_v` as they were, for
every prior contents of the convoy. -/
theorem must_recalc_flags_independent (c : convoi_t) :
    (c.must_recalc_data.recalc_data = true
      ∧ c.must_recalc_data.recalc_data_front = c.recalc_data_front
      ∧ c.must_recalc_data.recalc_speed_limit = c.recalc_speed_limit
      ∧ c.must_recalc_data.recalc_min_top_speed = c.recalc_min_top_speed
      ∧ c.must_recalc_data.previous_delta_v = c.previous_delta_v)
    ∧ (c.must_recalc_data_front.recalc_data_front = true
      ∧ c.must_recalc_data_front.recalc_data = c.recalc_data
      ∧ c.must_recalc_data_front.recalc_speed_limit = c.recalc_speed_limit
      ∧ c.must_recalc_data_front.recalc_min_top_speed = c.recalc_min_top_speed
      ∧ c.must_recalc_data_front.previous_delta_v = c.previous_delta_v)
    ∧ (c.must_recalc_speed_limit.recalc_speed_limit = true
      ∧ c.must_recalc_speed_limit.recalc_data = c.recalc_data
      ∧ c.must_recalc_speed_limit.recalc_data_front = c.recalc_data_front
      ∧ c.must_recalc_speed_limit.recalc_min_top_speed = c.recalc_min_top_speed
      ∧ c.must_recalc_speed_limit.previous_delta_v = c.previous_delta_v)
    ∧ (c.must_recalc_min_top_speed.recalc_min_top_speed = true
      ∧ c.must_recalc_min_top_speed.recalc_data = c.recalc_data
      ∧ c.must_recalc_min_top_speed.recalc_data_front = c.recalc_data_front
      ∧ c.must_recalc_min_top_speed.recalc_speed_limit = c.recalc_speed_limit
      ∧ c.must_recalc_min_top_speed.previous_delta_v = c.previous_delta_v)
    ∧ (c.must_recalc_data = { c with recalc_data := true }
      ∧ c.must_recalc_data_front = { c with recalc_data_front := true }
      ∧ c.must_recalc_speed_limit = { c with recalc_speed_limit := true }
      ∧ c.must_recalc_min_top_speed = { c with recalc_min_top_speed := true }) :=
  ⟨⟨rfl, rfl, rfl, rfl, rfl⟩, ⟨rfl, rfl, rfl, rfl, rfl⟩, ⟨rfl, rfl, rfl, rfl, rfl⟩,
    ⟨rfl, rfl, rfl, rfl, rfl⟩, ⟨rfl, rfl, rfl, rfl⟩⟩

/-- C10, counterexample: on a convoy whose flag `recalc_min_top_speed` is set
and whose `min_top_speed` (77) is stale, `reset_recalc_min_top_speed()` clears
the flag and leaves `min_top_speed` and `is_electric` as they were. -/
theorem reset_recalc_min_top_speed_recomputes_nothing :
    get_recalc_min_top_speed { blank with recalc_min_top_speed := true, min_top_speed := 77 }
        = true
    ∧ get_recalc_min_top_speed
        (reset_recalc_min_top_speed
          { blank with recalc_min_top_speed := true, min_top_speed := 77 }) = false
    ∧ get_min_top_speed
        (reset_recalc_min_top_speed
          { blank with recalc_min_top_speed := true, min_top_speed := 77 }) = 77
    ∧ needs_electrification
        (reset_recalc_min_top_speed
          { blank with recalc_min_top_speed := true, min_top_speed := 77 })
        = needs_electrification
          { blank with recalc_min_top_speed := true, min_top_speed := 77 } :=
  ⟨rfl, rfl, rfl, rfl⟩

/-- The flag `recalc_min_top_speed` after a public inline operation other than
`reset_recalc_min_top_speed` is at least what it was. -/
theorem Op.apply_keeps_recalc_min_top_speed (c c' : convoi_t) (op : Op)
    (h : op.apply c = some c') (hop : op ≠ .reset_recalc_min_top_speed)
    (hf : c.recalc_min_top_speed = true) : c'.recalc_min_top_speed = true := by
  cases op
  case reset_recalc_min_top_speed => exact absurd rfl hop
  case set_state n =>
    simp only [Op.apply, set_state] at h
    split at h
    · cases h; exact hf
    · cases h
  case remove_crossing_reservation_at idx =>
    simp only [Op.apply, remove_crossing_reservation_at] at h
    split at h
    · cases h; exact hf
    · cases h
  all_goals (simp only [Op.apply, Option.some.injEq] at h; subst h; first | exact hf | rfl)

/-- C10, amended: among the public inline operations of `convoi_t` only
`reset_recalc_min_top_speed()` turns `recalc_min_top_speed` from true to false,
and it does so unconditionally, leaving `min_top_speed` and `is_electric` as
they were: nothing in the header recomputes the aggregate before the flag is
cleared, that order is left to the callers. -/
theorem recalc_min_top_speed_cleared_only_by_reset (c c' : convoi_t) (op : Op)
    (h : op.apply c = some c') (hset : c.get_recalc_min_top_speed = true)
    (hclr : c'.get_recalc_min_top_speed = false) :
    op = .reset_recalc_min_top_speed
    ∧ c'.get_min_top_speed = c.get_min_top_speed
    ∧ c'.needs_electrification = c.needs_electrification := by
  have hop : op = .reset_recalc_min_top_speed := by
    by_contra hne
    have := Op.apply_keeps_recalc_min_top_speed c c' op h hne hset
    simp [get_recalc_min_top_speed] at hclr
    rw [this] at hclr
    cases hclr
  subst hop
  simp only [Op.apply, Option.some.injEq] at h
  subst h
  exact ⟨rfl, rfl, rfl⟩

/-- C10, the amended statement at a concrete convoy with a stale
`min_top_speed`. -/
theorem recalc_min_top_speed_cleared_only_by_reset_witness :
    (Op.reset_recalc_min_top_speed = Op.reset_recalc_min_top_speed)
    ∧ get_min_top_speed
        (reset_recalc_min_top_speed
          { blank with recalc_min_top_speed := true, min_top_speed := 77 })
        = get_min_top_speed { blank with recalc_min_top_speed := true, min_top_speed := 77 }
    ∧ needs_electrification
        (reset_recalc_min_top_speed
          { blank with recalc_min_top_speed := true, min_top_speed := 77 })
        = needs_electrification
          { blank with recalc_min_top_speed := true, min_top_speed := 77 } :=
  recalc_min_top_speed_cleared_only_by_reset
    { blank with recalc_min_top_speed := true, min_top_speed := 77 }
    (reset_recalc_min_top_speed { blank with recalc_min_top_speed := true, min_top_speed := 77 })
    .reset_recalc_min_top_speed rfl rfl rfl

/-! ## C7 and C8: the commands of the detail window -/

/-- C7: when the convoy handle of the window is not bound, `action_triggered`
issues no tool command, does not set the copy convoy and returns false, for
every component, every world and whatever convoys exist (nothing is read
through the handle). -/
theorem action_triggered_unbound (welt : karte_t) (deref : Nat → convoi_t)
    (g : convoi_detail_t) (comp : gui_component) (h : g.cnv.is_bound = false) :
    action_triggered welt deref g comp = some ([], false) := by
  cases hc : g.cnv with
  | none => simp [action_triggered, hc]
  | some id => simp [convoihandle_t.is_bound, hc] at h

/-- C7 at a concrete window: unbound handle, sale button pressed. -/
theorem action_triggered_unbound_witness :
    action_triggered ⟨fun _ => some 0, 0, 0⟩ (fun _ => blank) ⟨none, [0, 1], 0⟩
      .sale_button = some ([], false) :=
  action_triggered_unbound ⟨fun _ => some 0, 0, 0⟩ (fun _ => blank) ⟨none, [0, 1], 0⟩
    .sale_button rfl

/-- C8: for a bound convoy `action_triggered` maps each button to one command
and returns true iff it issued one: sale gives tool 'x', withdraw tool 'w', copy
`set_copy_convoi` and no tool command; the trade button pressed by the owner
with an existing selected player gives tool 'a' with the decimal text of
`viewable_players[selection]`, pressed by a non-owner whose number equals
`accept_player_nr` it gives tool 'o'. An unknown component, an owner whose
selected player does not exist and a non-owner who is not the accepted player
give no command and false. (The selection is an index into
`viewable_players`.) -/
theorem action_triggered_bound (welt : karte_t) (deref : Nat → convoi_t)
    (g : convoi_detail_t) (comp : gui_component) (id : Nat) (hb : g.cnv = some id) :
    (comp = .sale_button →
      action_triggered welt deref g comp = some ([.call_convoi_tool id 'x' none], true))
    ∧ (comp = .withdraw_button →
      action_triggered welt deref g comp = some ([.call_convoi_tool id 'w' none], true))
    ∧ (comp = .copy_convoi_button →
      action_triggered welt deref g comp = some ([.set_copy_convoi (some id)], true))
    ∧ (∀ nr, comp = .trade_convoi_button → (deref id).get_owner = welt.active_player →
        g.viewable_player g.trade_player_num_selection = some nr →
        (welt.get_player nr).isSome = true →
        action_triggered welt deref g comp
          = some ([.call_convoi_tool id 'a' (some (Nat.repr nr))], true))
    ∧ (comp = .trade_convoi_button → (deref id).get_owner ≠ welt.active_player →
        welt.active_player_nr = (deref id).get_accept_player_nr →
        action_triggered welt deref g comp = some ([.call_convoi_tool id 'o' none], true))
    ∧ (comp ≠ .sale_button → comp ≠ .withdraw_button → comp ≠ .copy_convoi_button →
        comp ≠ .trade_convoi_button →
        action_triggered welt deref g comp = some ([], false))
    ∧ (∀ nr, comp = .trade_convoi_button → (deref id).get_owner = welt.active_player →
        g.viewable_player g.trade_player_num_selection = some nr →
        welt.get_player nr = none →
        action_triggered welt deref g comp = some ([], false))
    ∧ (comp = .trade_convoi_button → (deref id).get_owner ≠ welt.active_player →
        welt.active_player_nr ≠ (deref id).get_accept_player_nr →
        action_triggered welt deref g comp = some ([], false))
    ∧ (∀ effects ret, action_triggered welt deref g comp = some (effects, ret) →
        (ret = true ↔ effects ≠ []) ∧ effects.length ≤ 1) := by
  refine ⟨?_, ?_, ?_, ?_, ?_, ?_, ?_, ?_, ?_⟩
  · rintro rfl; simp [action_triggered, hb]
  · rintro rfl; simp [action_triggered, hb]
  · rintro rfl; simp [action_triggered, hb]
  · rintro nr rfl ho hv hp
    simp [action_triggered, hb, ho, hv, hp, toString, instToStringNat]
  · rintro rfl ho ha
    simp [action_triggered, hb, ho, ha]
  · intro h1 h2 h3 h4
    simp [action_triggered, hb, h1, h2, h3, h4]
  · rintro nr rfl ho hv hp
    simp [action_triggered, hb, ho, hv, hp]
  · rintro rfl ho ha
    simp [action_triggered, hb, ho, ha]
  · intro effects ret h
    simp only [action_triggered, hb] at h
    split at h
    · cases h; simp
    · split at h
      · cases h; simp
      · split at h
        · cases h; simp
        · split at h
          · split at h
            · split at h
              · cases h
              · split at h
                · cases h; simp
                · cases h; simp
            · split at h
              · cases h; simp
              · cases h; simp
          · cases h; simp

/-- C8 at a concrete window: convoy 3 is bound and owned by the active player
(address 500), player 2 exists and is the second entry of the list, which is
selected: the trade button issues tool 'a' with the text "2". -/
theorem action_triggered_bound_witness :
    action_triggered ⟨fun n => if n = 0 then some 500 else if n = 2 then some 502 else none, 500, 0⟩
        (fun _ => { blank with owner := 500 }) ⟨some 3, [0, 2], 1⟩ .trade_convoi_button
      = some ([.call_convoi_tool 3 'a' (some "2")], true) :=
  (action_triggered_bound ⟨fun n => if n = 0 then some 500 else if n = 2 then some 502 else none, 500, 0⟩
    (fun _ => { blank with owner := 500 }) ⟨some 3, [0, 2], 1⟩ .trade_convoi_button 3
    rfl).2.2.2.1 2 rfl rfl rfl rfl

/-! ## Helper lemmas on the world -/

theorem World.getElem?_put (w : World) (i j : Nat) (c c' : convoi_t) (h : w[i]? = some c) :
    (w.put i c')[j]? = if j = i then some c' else w[j]? := by
  have hi : i < w.length := by
    rcases List.getElem?_eq_some_iff.1 h with ⟨hlt, _⟩
    exact hlt
  unfold World.put
  rw [List.getElem?_set]
  by_cases hji : j = i
  · subst hji; simp [hi]
  · have hij : ¬ i = j := fun e => hji e.symm
    simp [hji, hij]

theorem Op.apply_coupling_convoi (c c' : convoi_t) (op : Op) (h : op.apply c = some c') :
    c'.coupling_convoi = c.coupling_convoi := by
  cases op
  case set_state n =>
    simp only [Op.apply, set_state] at h
    split at h
    · cases h; rfl
    · cases h
  case remove_crossing_reservation_at idx =>
    simp only [Op.apply, remove_crossing_reservation_at] at h
    split at h
    · cases h; rfl
    · cases h
  all_goals (simp only [Op.apply, Option.some.injEq] at h; subst h; rfl)

theorem World.holds_nil (j : Nat) (p : koord3d) : ¬ World.holds [] j p := by
  rintro ⟨c, hc, _⟩
  simp at hc

theorem World.holds_cons_zero (c : convoi_t) (w : World) (p : koord3d) :
    World.holds (c :: w) 0 p ↔ p ∈ c.reserved_tiles := by
  constructor
  · rintro ⟨c', hc, hp⟩
    simp at hc
    subst hc
    exact hp
  · intro hp
    exact ⟨c, by simp, hp⟩

theorem World.holds_cons_succ (c : convoi_t) (w : World) (j : Nat) (p : koord3d) :
    World.holds (c :: w) (j + 1) p ↔ World.holds w j p := by
  unfold World.holds
  simp

theorem World.coupling_symmetric_iff_link (w : World) :
    World.coupling_symmetric w ↔
      ∀ a b, World.link w a = some (some b) → World.link w b = some (some a) := by
  unfold World.coupling_symmetric World.link
  constructor
  · intro h a b hab
    rcases Option.map_eq_some'.1 hab with ⟨ca, hca, hl⟩
    rcases h a b ca hca hl with ⟨cb, hcb, hl'⟩
    exact Option.map_eq_some'.2 ⟨cb, hcb, hl'⟩
  · intro h a b ca hca hl
    exact Option.map_eq_some'.1 (h a b (Option.map_eq_some'.2 ⟨ca, hca, hl⟩))

theorem World.link_put (w : World) (i j : Nat) (c c' : convoi_t) (h : w[i]? = some c) :
    World.link (w.put i c') j
      = if j = i then some c'.coupling_convoi else World.link w j := by
  unfold World.link
  rw [World.getElem?_put w i j c c' h]
  by_cases hji : j = i
  · simp [hji, get_coupling_convoi]
  · simp [hji]

theorem World.link_eq_of_getElem? (w : World) (i : Nat) (c : convoi_t) (h : w[i]? = some c) :
    World.link w i = some c.coupling_convoi := by
  simp [World.link, h, get_coupling_convoi]

/-- A successful `couple_convoi` ties the two convoys to each other. -/
theorem World.link_couple_convoi (w : World) (self t : Nat) (cw cr : Bool)
    (hok : (w.couple_convoi self (some t) cw cr).2 = true) :
    t ≠ self ∧ World.link w self = some none ∧ World.link w t = some none
    ∧ (∀ j, World.link (w.couple_convoi self (some t) cw cr).1 j
        = if j = t then some (some self) else if j = self then some (some t)
          else World.link w j)
    ∧ ∃ a, (w.couple_convoi self (some t) cw cr).1[self]? = some a ∧ a.state = COUPLED := by
  unfold World.couple_convoi at hok ⊢
  cases ha : w[self]? with
  | none => simp [ha] at hok
  | some a =>
    cases hb : w[t]? with
    | none => simp [ha, hb] at hok
    | some b =>
      simp only [ha, hb] at hok ⊢
      split at hok
      · rename_i hcond
        rw [if_pos hcond]
        obtain ⟨hts, hau, hbu, -, -, -, -⟩ := hcond
        have hb' : (w.put self { a with coupling_convoi := some t, state := COUPLED })[t]?
            = some b := by
          rw [World.getElem?_put w self t a _ ha]; simp [hts, hb]
        have hst : self ≠ t := fun e => hts e.symm
        refine ⟨hts, ?_, ?_, ?_, ?_⟩
        · rw [World.link_eq_of_getElem? w self a ha]
          cases hl : a.coupling_convoi with
          | none => rfl
          | some x => simp [convoihandle_t.is_bound, hl] at hau
        · rw [World.link_eq_of_getElem? w t b hb]
          cases hl : b.coupling_convoi with
          | none => rfl
          | some x => simp [convoihandle_t.is_bound, hl] at hbu
        · intro j
          rw [World.link_put _ t j b _ hb', World.link_put w self j a _ ha]
        · refine ⟨{ a with coupling_convoi := some t, state := COUPLED }, ?_, rfl⟩
          rw [World.getElem?_put _ t self b _ hb', World.getElem?_put w self self a _ ha]
          simp [hst]
      · simp at hok

/-- A `couple_convoi` that is refused changes nothing. -/
theorem World.couple_convoi_refused (w : World) (self : Nat) (target : convoihandle_t)
    (cw cr : Bool) (hno : (w.couple_convoi self target cw cr).2 = false) :
    (w.couple_convoi self target cw cr).1 = w := by
  unfold World.couple_convoi at hno ⊢
  cases ha : w[self]? with
  | none => simp
  | some a =>
    cases target with
    | none => simp
    | some t =>
      cases hb : w[t]? with
      | none => simp [hb]
      | some b =>
        simp only [ha, hb] at hno ⊢
        split
        · rename_i hcond
          rw [if_pos hcond] at hno
          simp at hno
        · rfl

theorem World.couple_convoi_symmetric (w : World) (self : Nat) (target : convoihandle_t)
    (cw cr : Bool) (hs : World.coupling_symmetric w) :
    World.coupling_symmetric (w.couple_convoi self target cw cr).1 := by
  cases hok : (w.couple_convoi self target cw cr).2 with
  | false => rw [World.couple_convoi_refused w self target cw cr hok]; exact hs
  | true =>
    cases target with
    | none => simp [World.couple_convoi] at hok
    | some t =>
      obtain ⟨hts, hls, hlt, hl, -⟩ := World.link_couple_convoi w self t cw cr hok
      rw [World.coupling_symmetric_iff_link] at hs ⊢
      intro x y hxy
      rw [hl] at hxy ⊢
      by_cases hxt : x = t
      · subst hxt
        simp only [if_true, Option.some.injEq] at hxy
        subst hxy
        simp [hts.symm]
      · by_cases hxs : x = self
        · subst hxs
          simp only [hxt, if_false, if_true, Option.some.injEq] at hxy
          subst hxy
          simp
        · simp only [hxt, hxs, if_false] at hxy
          have hyx := hs x y hxy
          have hyt : y ≠ t := by
            rintro rfl
            rw [hlt] at hyx
            cases hyx
          have hys : y ≠ self := by
            rintro rfl
            rw [hls] at hyx
            cases hyx
          simp [hyt, hys, hyx]

theorem World.link_put_same (w : World) (i : Nat) (c c' : convoi_t) (hc : w[i]? = some c)
    (hl : c'.coupling_convoi = c.coupling_convoi) (j : Nat) :
    World.link (w.put i c') j = World.link w j := by
  rw [World.link_put w i j c c' hc]
  by_cases hji : j = i
  · subst hji
    rw [if_pos rfl, World.link_eq_of_getElem? w j c hc, hl]
  · rw [if_neg hji]

theorem World.coupling_symmetric_of_link_eq (w w' : World)
    (h : ∀ j, World.link w' j = World.link w j) (hs : World.coupling_symmetric w) :
    World.coupling_symmetric w' := by
  rw [World.coupling_symmetric_iff_link] at hs ⊢
  intro a b hab
  rw [h] at hab ⊢
  exact hs a b hab

/-- The claiming walk touches no link. -/
theorem World.link_claim_tiles (w : World) (i : Nat) (ps : List koord3d) (j : Nat) :
    World.link (w.claim_tiles i ps).1 j = World.link w j := by
  induction ps generalizing w with
  | nil => rfl
  | cons p ps ih =>
    unfold World.claim_tiles
    cases hc : w[i]? with
    | none => rfl
    | some c =>
      by_cases ht : w.tile_free i p = true
      · simp only [ht, if_true]
        rw [ih, World.link_put_same w i c (c.reserve_pos p) hc rfl]
      · simp only [ht]
        rfl

theorem convoi_t.coupling_foldl_unreserve_pos (tiles : List koord3d) (c : convoi_t) :
    (tiles.foldl convoi_t.unreserve_pos c).coupling_convoi = c.coupling_convoi := by
  induction tiles generalizing c with
  | nil => rfl
  | cons t ts ih =>
    rw [List.foldl_cons, ih]
    rfl

/-- A walk of `block_reserver` touches no link. -/
theorem World.link_block_reserver (w : World) (i start_index count : Nat) (reserve : Bool)
    (j : Nat) :
    World.link (w.block_reserver i start_index count reserve).1 j = World.link w j := by
  unfold World.block_reserver
  cases hc : w[i]? with
  | none => rfl
  | some c =>
    cases reserve with
    | true =>
      simp only [if_true]
      cases hc1 : (w.claim_tiles i ((c.route.drop start_index).take count)).1[i]? with
      | none => rfl
      | some c1 =>
        dsimp only
        refine (World.link_put_same _ i c1 _ hc1 ?_ j).trans (World.link_claim_tiles w i _ j)
        rfl
    | false =>
      simp only [Bool.false_eq_true, if_false]
      exact World.link_put_same w i c _ hc (convoi_t.coupling_foldl_unreserve_pos _ c) j

/-- An `uncouple_convoi` of a convoy without a partner changes nothing. -/
theorem World.uncouple_convoi_none (w : World) (self resume : Nat) (position : List koord3d)
    (hno : (w.uncouple_convoi self resume position).2 = none) :
    (w.uncouple_convoi self resume position).1 = w := by
  unfold World.uncouple_convoi at hno ⊢
  cases ha : w[self]? with
  | none => simp
  | some a =>
    cases hl : a.coupling_convoi with
    | none => simp [hl]
    | some q =>
      simp only [ha, hl] at hno
      split at hno <;> cases hno

/-- The handle `uncouple_convoi` returns is the `coupling_convoi` of the convoy
it is called on. -/
theorem World.uncouple_convoi_returns (w : World) (self resume : Nat)
    (position : List koord3d) (a : convoi_t) (ha : w[self]? = some a) :
    (w.uncouple_convoi self resume position).2 = a.coupling_convoi := by
  unfold World.uncouple_convoi
  rw [ha]
  dsimp only
  cases hl : a.coupling_convoi with
  | none => rfl
  | some q =>
    dsimp only
    split <;> rfl

/-- In a world with symmetric links, `uncouple_convoi` of a convoy with partner
`p` unbinds the handles of both and touches no other link. -/
theorem World.link_uncouple_convoi (w : World) (self resume p : Nat)
    (position : List koord3d) (hs : World.coupling_symmetric w)
    (hp : (w.uncouple_convoi self resume position).2 = some p) :
    World.link w self = some (some p) ∧ World.link w p = some (some self)
    ∧ ∀ j, World.link (w.uncouple_convoi self resume position).1 j
        = if j = p then some none else if j = self then some none else World.link w j := by
  rw [World.coupling_symmetric_iff_link] at hs
  unfold World.uncouple_convoi at hp ⊢
  cases ha : w[self]? with
  | none => simp [ha] at hp
  | some a =>
    cases hl : a.coupling_convoi with
    | none => simp [ha, hl] at hp
    | some q =>
      have hq : q = p := by
        simp only [ha, hl] at hp
        split at hp <;> (cases hp; rfl)
      subst hq
      have hself : World.link w self = some (some q) := by
        rw [World.link_eq_of_getElem? w self a ha, hl]
      have hpart : World.link w q = some (some self) := hs self q hself
      refine ⟨hself, hpart, ?_⟩
      cases hb : (w.put self (World.detach a resume))[q]? with
      | none =>
        exfalso
        rw [World.getElem?_put w self q a _ ha] at hb
        by_cases hqs : q = self
        · simp [hqs] at hb
        · simp only [hqs, if_false] at hb
          simp [World.link, hb] at hpart
      | some b =>
        intro j
        simp only [hl, hb]
        rw [World.link_claim_tiles, World.link_put _ q j b _ hb,
          World.link_put w self j a _ ha]
        rfl

theorem World.uncouple_convoi_symmetric (w : World) (self resume : Nat)
    (position : List koord3d) (hs : World.coupling_symmetric w) :
    World.coupling_symmetric (w.uncouple_convoi self resume position).1 := by
  cases hp : (w.uncouple_convoi self resume position).2 with
  | none => rw [World.uncouple_convoi_none w self resume position hp]; exact hs
  | some p =>
    obtain ⟨hls, hlp, hl⟩ := World.link_uncouple_convoi w self resume p position hs hp
    rw [World.coupling_symmetric_iff_link] at hs ⊢
    intro x y hxy
    rw [hl] at hxy ⊢
    by_cases hxp : x = p
    · simp [hxp] at hxy
    · by_cases hxs : x = self
      · simp [hxp, hxs] at hxy
      · simp only [hxp, hxs, if_false] at hxy
        have hyx := hs x y hxy
        have hyp : y ≠ p := by
          rintro rfl
          rw [hlp] at hyx
          simp only [Option.some.injEq] at hyx
          exact hxs hyx.symm
        have hys : y ≠ self := by
          rintro rfl
          rw [hls] at hyx
          simp only [Option.some.injEq] at hyx
          exact hxp hyx.symm
        simp [hyp, hys, hyx]

/-- The condition of `couple_convoi`: a request made under it is granted. -/
theorem World.couple_convoi_granted (w : World) (self t : Nat) (a b : convoi_t)
    (ha : w[self]? = some a) (hb : w[t]? = some b) (hts : t ≠ self)
    (hau : a.coupling_convoi.is_bound = false) (hbu : b.coupling_convoi.is_bound = false)
    (hac : a.is_coupled = false) (hbc : b.is_coupled = false) :
    (w.couple_convoi self (some t) true true).2 = true := by
  simp [World.couple_convoi, ha, hb, hts, hau, hbu, hac, hbc]

/-- One operation on the world keeps the links symmetric. -/
theorem World.step_symmetric (w w' : World) (op : WorldOp)
    (hs : World.coupling_symmetric w) (hstep : w.step op = some w') :
    World.coupling_symmetric w' := by
  cases op with
  | couple self target cw cr =>
    simp only [World.step, Option.some.injEq] at hstep
    subst hstep
    exact World.couple_convoi_symmetric w self target cw cr hs
  | uncouple self resume position =>
    simp only [World.step, Option.some.injEq] at hstep
    subst hstep
    exact World.uncouple_convoi_symmetric w self resume position hs
  | block_reserver i start_index count reserve =>
    simp only [World.step, Option.some.injEq] at hstep
    subst hstep
    exact World.coupling_symmetric_of_link_eq w _
      (World.link_block_reserver w i start_index count reserve) hs
  | call i o =>
    simp only [World.step] at hstep
    split at hstep
    · cases hstep
    · rename_i c hc
      split at hstep
      · cases hstep
      · rename_i c' happ
        simp only [Option.some.injEq] at hstep
        subst hstep
        exact World.coupling_symmetric_of_link_eq w _
          (World.link_put_same w i c c' hc (Op.apply_coupling_convoi c c' o happ)) hs

theorem World.run_symmetric (w : World) (ops : List WorldOp) (w' : World)
    (hs : World.coupling_symmetric w) (hr : World.run w ops = some w') :
    World.coupling_symmetric w' := by
  induction ops generalizing w with
  | nil =>
    simp only [World.run, Option.some.injEq] at hr
    subst hr
    exact hs
  | cons op ops ih =>
    simp only [World.run] at hr
    split at hr
    · cases hr
    · rename_i w1 hstep
      exact ih w1 (World.step_symmetric w w1 op hs hstep) hr

/-! ## C3: coupling is symmetric -/

/-- C3: in every world reached from one with symmetric links by public inline
operations, walks of `block_reserver`, couplings and uncouplings, the links are
symmetric (whenever convoy `a` names `b` as its coupling convoy, `b` names
`a`). There a coupling request between two different convoys that are neither
linked nor in a coupled state, with compatible waytype and reachable target,
is granted; a granted `couple_convoi` sets both links and puts the requester
into COUPLED, a refused one changes nothing; and for every convoy `self` whose
`coupling_convoi` is some `p`, `uncouple_convoi` returns `p` and leaves the
handles of both `self` and `p` unbound in the one operation. -/
theorem coupling_stays_symmetric (w : World) (ops : List WorldOp) (w' : World)
    (hs : World.coupling_symmetric w) (hr : World.run w ops = some w') :
    World.coupling_symmetric w'
    ∧ (∀ self t a b, w'[self]? = some a → w'[t]? = some b → t ≠ self →
        a.get_coupling_convoi.is_bound = false → b.get_coupling_convoi.is_bound = false →
        a.is_coupled = false → b.is_coupled = false →
        (w'.couple_convoi self (some t) true true).2 = true)
    ∧ (∀ self t cw cr, (w'.couple_convoi self (some t) cw cr).2 = true →
        World.link (w'.couple_convoi self (some t) cw cr).1 self = some (some t)
        ∧ World.link (w'.couple_convoi self (some t) cw cr).1 t = some (some self)
        ∧ ∃ a, (w'.couple_convoi self (some t) cw cr).1[self]? = some a
            ∧ a.state = COUPLED)
    ∧ (∀ self target cw cr, (w'.couple_convoi self target cw cr).2 = false →
        (w'.couple_convoi self target cw cr).1 = w')
    ∧ (∀ self resume position a p, w'[self]? = some a → a.get_coupling_convoi = some p →
        (w'.uncouple_convoi self resume position).2 = some p
        ∧ World.link w' p = some (some self)
        ∧ World.link (w'.uncouple_convoi self resume position).1 self = some none
        ∧ World.link (w'.uncouple_convoi self resume position).1 p = some none) := by
  have hs' := World.run_symmetric w ops w' hs hr
  refine ⟨hs', ?_, ?_, ?_, ?_⟩
  · intro self t a b ha hb hts hau hbu hac hbc
    exact World.couple_convoi_granted w' self t a b ha hb hts hau hbu hac hbc
  · intro self t cw cr hok
    obtain ⟨hts, -, -, hl, ha⟩ := World.link_couple_convoi w' self t cw cr hok
    refine ⟨?_, ?_, ha⟩
    · rw [hl]; simp [hts.symm]
    · rw [hl]; simp
  · intro self target cw cr hno
    exact World.couple_convoi_refused w' self target cw cr hno
  · intro self resume position a p ha hl
    have hp : (w'.uncouple_convoi self resume position).2 = some p := by
      rw [World.uncouple_convoi_returns w' self resume position a ha]
      exact hl
    obtain ⟨_, h2, hlk⟩ := World.link_uncouple_convoi w' self resume p position hs' hp
    refine ⟨hp, h2, ?_, ?_⟩
    · rw [hlk]; by_cases h : self = p <;> simp [h]
    · rw [hlk]; simp

/-- C3 at a concrete run: of two unlinked convoys, convoy 1 couples to convoy 0
and convoy 0 then marks its data for recalculation; the links point both ways,
and an `uncouple_convoi` of convoy 0 in the world reached returns convoy 1 and
leaves both handles unbound. -/
theorem coupling_stays_symmetric_witness :
    World.coupling_symmetric [blank, blank]
    ∧ World.run [blank, blank] [.couple 1 (some 0) true true, .call 0 .must_recalc_data]
        = some [{ blank with coupling_convoi := some 1, recalc_data := true },
            { blank with coupling_convoi := some 0, state := COUPLED }]
    ∧ World.coupling_symmetric
        [{ blank with coupling_convoi := some 1, recalc_data := true },
          { blank with coupling_convoi := some 0, state := COUPLED }]
    ∧ (World.uncouple_convoi
          [{ blank with coupling_convoi := some 1, recalc_data := true },
            { blank with coupling_convoi := some 0, state := COUPLED }] 0 DRIVING
          [⟨5, 6, 0⟩]).2 = some 1
    ∧ World.link (World.uncouple_convoi
          [{ blank with coupling_convoi := some 1, recalc_data := true },
            { blank with coupling_convoi := some 0, state := COUPLED }] 0 DRIVING
          [⟨5, 6, 0⟩]).1 0 = some none
    ∧ World.link (World.uncouple_convoi
          [{ blank with coupling_convoi := some 1, recalc_data := true },
            { blank with coupling_convoi := some 0, state := COUPLED }] 0 DRIVING
          [⟨5, 6, 0⟩]).1 1 = some none := by
  have hs : World.coupling_symmetric [blank, blank] := by
    intro a b ca hca hl
    have hm := List.getElem?_mem hca
    simp only [List.mem_cons, List.mem_singleton, List.not_mem_nil, or_false, or_self] at hm
    subst hm
    simp [blank, get_coupling_convoi] at hl
  have h := coupling_stays_symmetric [blank, blank]
    [.couple 1 (some 0) true true, .call 0 .must_recalc_data]
    [{ blank with coupling_convoi := some 1, recalc_data := true },
      { blank with coupling_convoi := some 0, state := COUPLED }] hs rfl
  have hu := h.2.2.2.2 0 DRIVING [⟨5, 6, 0⟩]
    { blank with coupling_convoi := some 1, recalc_data := true } 1 rfl rfl
  exact ⟨hs, rfl, h.1, hu.1, hu.2.2.1, hu.2.2.2⟩

/-! ## More helper lemmas on `vector_tpl` -/

theorem vector_tpl.nodup_append_unique {α : Type} [DecidableEq α] (v : vector_tpl α)
    (elem : α) (h : v.Nodup) : (vector_tpl.append_unique v elem).Nodup := by
  unfold vector_tpl.append_unique
  by_cases hc : vector_tpl.is_contained v elem = true
  · simpa [hc] using h
  · have hm : elem ∉ v := fun hin => hc ((vector_tpl.is_contained_iff v elem).2 hin)
    rw [if_neg hc]
    unfold vector_tpl.append
    rw [List.nodup_append]
    refine ⟨h, List.nodup_singleton elem, ?_⟩
    intro a ha hb
    rw [List.mem_singleton] at hb
    exact hm (hb ▸ ha)

theorem vector_tpl.append_unique_of_mem {α : Type} [DecidableEq α] (v : vector_tpl α)
    (elem : α) (h : elem ∈ v) : vector_tpl.append_unique v elem = v := by
  unfold vector_tpl.append_unique
  rw [if_pos ((vector_tpl.is_contained_iff v elem).2 h)]

theorem vector_tpl.nodup_remove {α : Type} [DecidableEq α] (v : vector_tpl α)
    (elem : α) (h : v.Nodup) : (vector_tpl.remove v elem).Nodup := by
  induction v with
  | nil => simp [vector_tpl.remove]
  | cons x xs ih =>
    rw [List.nodup_cons] at h
    by_cases hx : x = elem
    · simp only [vector_tpl.remove, hx, if_true]
      exact h.2
    · simp only [vector_tpl.remove, hx, if_false]
      rw [List.nodup_cons]
      exact ⟨fun hin => h.1 (vector_tpl.mem_of_mem_remove xs elem x hin), ih h.2⟩

theorem vector_tpl.remove_eq_filter {α : Type} [DecidableEq α] (v : vector_tpl α)
    (elem : α) (h : v.Nodup) :
    vector_tpl.remove v elem = v.filter (fun q => decide (q ≠ elem)) := by
  induction v with
  | nil => rfl
  | cons x xs ih =>
    rw [List.nodup_cons] at h
    by_cases hx : x = elem
    · subst hx
      have hall : xs.filter (fun q => decide (q ≠ x)) = xs := by
        rw [List.filter_eq_self]
        intro a ha
        simp only [ne_eq, decide_eq_true_eq]
        rintro rfl
        exact h.1 ha
      have hhead : List.filter (fun q => decide (q ≠ x)) (x :: xs)
          = List.filter (fun q => decide (q ≠ x)) xs :=
        List.filter_cons_of_neg (by simp)
      rw [hhead, hall]
      simp [vector_tpl.remove]
    · have hhead : List.filter (fun q => decide (q ≠ elem)) (x :: xs)
          = x :: List.filter (fun q => decide (q ≠ elem)) xs :=
        List.filter_cons_of_pos (by simpa using hx)
      rw [hhead, ← ih h.2]
      simp [vector_tpl.remove, hx]

theorem vector_tpl.remove_append_unique {α : Type} [DecidableEq α] (v : vector_tpl α)
    (elem : α) (h : elem ∉ v) :
    vector_tpl.remove (vector_tpl.append_unique v elem) elem = v := by
  have hc : ¬ vector_tpl.is_contained v elem = true :=
    fun hc => h ((vector_tpl.is_contained_iff v elem).1 hc)
  unfold vector_tpl.append_unique
  rw [if_neg hc]
  unfold vector_tpl.append
  clear hc
  induction v with
  | nil => simp [vector_tpl.remove]
  | cons x xs ih =>
    have hx : ¬ x = elem := fun e => h (by simp [e])
    have hxs : elem ∉ xs := fun e => h (List.mem_cons_of_mem _ e)
    simp [vector_tpl.remove, hx, ih hxs]

theorem convoi_t.nodup_reservation_calls (c : convoi_t) (calls : List reservation_call)
    (h : c.reserved_tiles.Nodup) : (c.reservation_calls calls).reserved_tiles.Nodup := by
  induction calls generalizing c with
  | nil => exact h
  | cons call calls ih =>
    cases call with
    | reserve pos =>
      exact ih (c.reserve_pos pos) (vector_tpl.nodup_append_unique _ pos h)
    | unreserve pos =>
      exact ih (c.unreserve_pos pos) (vector_tpl.nodup_remove _ pos h)

/-! ## C11, C12 and C20: the claimed tiles as a set -/

/-- C11: starting from an empty `reserved_tiles`, after any finite sequence of
`reserve_pos` and `unreserve_pos` calls `reserved_tiles` contains no coordinate
twice; and `reserve_pos(p)` is idempotent on every convoy: calling it twice
gives the same convoy as calling it once. -/
theorem reserved_tiles_nodup (c : convoi_t) (calls : List reservation_call)
    (h : c.reserved_tiles = []) :
    (c.reservation_calls calls).reserved_tiles.Nodup
    ∧ ∀ (d : convoi_t) (p : koord3d), (d.reserve_pos p).reserve_pos p = d.reserve_pos p := by
  refine ⟨convoi_t.nodup_reservation_calls c calls (by rw [h]; exact List.nodup_nil), ?_⟩
  intro d p
  have hm : p ∈ vector_tpl.append_unique d.reserved_tiles p :=
    (vector_tpl.mem_append_unique _ _ _).2 (Or.inr rfl)
  have hi : vector_tpl.append_unique (vector_tpl.append_unique d.reserved_tiles p) p
      = vector_tpl.append_unique d.reserved_tiles p :=
    vector_tpl.append_unique_of_mem _ p hm
  simp only [reserve_pos, hi]

/-- C11 at a concrete sequence: the tile (5,6,0) is claimed twice, released and
claimed again between two claims of (5,7,0). -/
theorem reserved_tiles_nodup_witness :
    (blank.reservation_calls
      [.reserve ⟨5, 6, 0⟩, .reserve ⟨5, 6, 0⟩, .reserve ⟨5, 7, 0⟩, .unreserve ⟨5, 6, 0⟩,
        .reserve ⟨5, 7, 0⟩, .reserve ⟨5, 6, 0⟩]).reserved_tiles.Nodup
    ∧ (blank.reservation_calls
      [.reserve ⟨5, 6, 0⟩, .reserve ⟨5, 6, 0⟩, .reserve ⟨5, 7, 0⟩, .unreserve ⟨5, 6, 0⟩,
        .reserve ⟨5, 7, 0⟩, .reserve ⟨5, 6, 0⟩]).reserved_tiles = [⟨5, 7, 0⟩, ⟨5, 6, 0⟩] :=
  ⟨(reserved_tiles_nodup blank _ rfl).1, by decide⟩

/-- C12: `reserve_pos` and `unreserve_pos` write `reserved_tiles` and nothing
else: the convoy after the call is the convoy before it with a new
`reserved_tiles`; in particular `next_reservation_index`, `state`, the route
and the longblock request are the same. -/
theorem reserve_pos_frame (c : convoi_t) (pos : koord3d) :
    (c.reserve_pos pos = { c with reserved_tiles := (c.reserve_pos pos).reserved_tiles }
      ∧ (c.reserve_pos pos).next_reservation_index = c.next_reservation_index
      ∧ (c.reserve_pos pos).state = c.state
      ∧ (c.reserve_pos pos).route = c.route
      ∧ (c.reserve_pos pos).longblock_signal_request = c.longblock_signal_request)
    ∧ (c.unreserve_pos pos = { c with reserved_tiles := (c.unreserve_pos pos).reserved_tiles }
      ∧ (c.unreserve_pos pos).next_reservation_index = c.next_reservation_index
      ∧ (c.unreserve_pos pos).state = c.state
      ∧ (c.unreserve_pos pos).route = c.route
      ∧ (c.unreserve_pos pos).longblock_signal_request = c.longblock_signal_request) :=
  ⟨⟨rfl, rfl, rfl, rfl, rfl⟩, ⟨rfl, rfl, rfl, rfl, rfl⟩⟩

/-- C20: for a duplicate-free `reserved_tiles`, after `unreserve_pos(pos)` the
tile `pos` is absent and the other tiles are all there in their old order; for
a `pos` that was not claimed, `reserve_pos(pos)` followed by
`unreserve_pos(pos)` gives back `reserved_tiles` (and the whole convoy) as it
was; and `is_reservation_empty()` is false right after any `reserve_pos`. -/
theorem unreserve_pos_on_set (c : convoi_t) (pos : koord3d) :
    (c.reserved_tiles.Nodup →
      pos ∉ (c.unreserve_pos pos).reserved_tiles
      ∧ (c.unreserve_pos pos).reserved_tiles
          = c.reserved_tiles.filter (fun q => decide (q ≠ pos))
      ∧ ∀ q, q ≠ pos → (q ∈ (c.unreserve_pos pos).reserved_tiles ↔ q ∈ c.reserved_tiles))
    ∧ (pos ∉ c.reserved_tiles →
        ((c.reserve_pos pos).unreserve_pos pos).reserved_tiles = c.reserved_tiles
        ∧ (c.reserve_pos pos).unreserve_pos pos = c)
    ∧ (c.reserve_pos pos).is_reservation_empty = false := by
  refine ⟨?_, ?_, ?_⟩
  · intro h
    have hf : (c.unreserve_pos pos).reserved_tiles
        = c.reserved_tiles.filter (fun q => decide (q ≠ pos)) :=
      vector_tpl.remove_eq_filter _ pos h
    refine ⟨?_, hf, ?_⟩
    · rw [hf]; simp
    · intro q hq
      rw [hf]; simp [hq]
  · intro hn
    have hr := vector_tpl.remove_append_unique c.reserved_tiles pos hn
    refine ⟨hr, ?_⟩
    simp only [unreserve_pos, reserve_pos, hr]
  · have hm : pos ∈ vector_tpl.append_unique c.reserved_tiles pos :=
      (vector_tpl.mem_append_unique _ _ _).2 (Or.inr rfl)
    have hl : (vector_tpl.append_unique c.reserved_tiles pos).length ≠ 0 := by
      intro h0
      rw [List.length_eq_zero] at h0
      rw [h0] at hm
      simp at hm
    simp [is_reservation_empty, reserve_pos, vector_tpl.empty, hl]

/-- C20 at a concrete convoy with three claimed tiles: releasing the middle one
keeps the other two in order, and claiming then releasing a fourth tile gives
the three tiles back. -/
theorem unreserve_pos_on_set_witness :
    ((⟨2, 0, 0⟩ : koord3d) ∉
        (unreserve_pos { blank with reserved_tiles := [⟨1, 0, 0⟩, ⟨2, 0, 0⟩, ⟨3, 0, 0⟩] }
          ⟨2, 0, 0⟩).reserved_tiles
      ∧ (unreserve_pos { blank with reserved_tiles := [⟨1, 0, 0⟩, ⟨2, 0, 0⟩, ⟨3, 0, 0⟩] }
          ⟨2, 0, 0⟩).reserved_tiles = [⟨1, 0, 0⟩, ⟨3, 0, 0⟩])
    ∧ (unreserve_pos
        (reserve_pos { blank with reserved_tiles := [⟨1, 0, 0⟩, ⟨2, 0, 0⟩, ⟨3, 0, 0⟩] }
          ⟨4, 0, 0⟩) ⟨4, 0, 0⟩).reserved_tiles = [⟨1, 0, 0⟩, ⟨2, 0, 0⟩, ⟨3, 0, 0⟩] :=
  ⟨⟨((unreserve_pos_on_set { blank with reserved_tiles := [⟨1, 0, 0⟩, ⟨2, 0, 0⟩, ⟨3, 0, 0⟩] }
      ⟨2, 0, 0⟩).1 (by decide)).1, by decide⟩,
    ((unreserve_pos_on_set { blank with reserved_tiles := [⟨1, 0, 0⟩, ⟨2, 0, 0⟩, ⟨3, 0, 0⟩] }
      ⟨4, 0, 0⟩).2.1 (by decide)).1⟩

/-! ## C13 to C15: the state queries -/

/-- C13: for every state value, `in_depot()` is true iff the state is
INITIAL. -/
theorem in_depot_iff_initial (c : convoi_t) : c.in_depot = true ↔ c.state = INITIAL := by
  simp [in_depot]

/-- C14: for every state value, `is_coupled()` is true iff the state is COUPLED
or COUPLED_LOADING; it is a function of the state alone: two convoys in the
same state agree on it, whatever their `coupling_convoi`, and rebinding or
unbinding the handle does not change it. -/
theorem is_coupled_iff_state (c : convoi_t) :
    (c.is_coupled = true ↔ c.state = COUPLED ∨ c.state = COUPLED_LOADING)
    ∧ (∀ d : convoi_t, d.state = c.state → d.is_coupled = c.is_coupled)
    ∧ (∀ h : convoihandle_t, is_coupled { c with coupling_convoi := h } = c.is_coupled) := by
  refine ⟨by simp [is_coupled], ?_, fun h => rfl⟩
  intro d hd
  simp [is_coupled, hd]

/-- C14 at concrete convoys: a convoy in COUPLED with an unbound
`coupling_convoi` is coupled, a convoy in DRIVING with a bound one is not. -/
theorem is_coupled_iff_state_witness :
    is_coupled { blank with state := COUPLED, coupling_convoi := none } = true
    ∧ is_coupled { blank with state := DRIVING, coupling_convoi := some 1 } = false :=
  ⟨(is_coupled_iff_state { blank with state := COUPLED, coupling_convoi := none }).1.2
      (Or.inl rfl), by decide⟩

/-- C15: for every state value, `is_loading()` is true iff the state is LOADING
or COUPLED_LOADING, so `is_loading() && is_coupled()` holds iff the state is
COUPLED_LOADING. -/
theorem is_loading_iff_state (c : convoi_t) :
    (c.is_loading = true ↔ c.state = LOADING ∨ c.state = COUPLED_LOADING)
    ∧ ((c.is_loading && c.is_coupled) = true ↔ c.state = COUPLED_LOADING) := by
  refine ⟨by simp [is_loading], ?_⟩
  simp only [is_loading, is_coupled, Bool.and_eq_true, Bool.or_eq_true, decide_eq_true_eq,
    LOADING, COUPLED, COUPLED_LOADING]
  omega

/-! ## C16 and C17: yielding and the longblock request -/

/-- C16: after `quit_yielding_lane()`, `get_yielding_quit_index()` is -1 and
`get_recalc_speed_limit()` is true, while `lane_affinity`,
`lane_affinity_end_index` and `requested_change_lane` are as before (as is
every member other than `yielding_quit_index` and `recalc_speed_limit`). -/
theorem quit_yielding_lane_effect (c : convoi_t) :
    c.quit_yielding_lane.get_yielding_quit_index = -1
    ∧ c.quit_yielding_lane.get_recalc_speed_limit = true
    ∧ c.quit_yielding_lane.get_lane_affinity = c.get_lane_affinity
    ∧ c.quit_yielding_lane.get_lane_affinity_end_index = c.get_lane_affinity_end_index
    ∧ c.quit_yielding_lane.is_requested_change_lane = c.is_requested_change_lane
    ∧ c.quit_yielding_lane = { c with yielding_quit_index := -1, recalc_speed_limit := true } :=
  ⟨rfl, rfl, rfl, rfl, rfl, rfl⟩

/-- C17: after `set_longblock_signal_judge_request_invalid()` the request is not
valid and its `sig` and `next_block` are as before, whatever the request was;
doing it twice is the same as doing it once, and no other member of the convoy
changes. -/
theorem longblock_request_invalidated (c : convoi_t) :
    c.set_longblock_signal_judge_request_invalid.longblock_signal_request.valid = false
    ∧ c.set_longblock_signal_judge_request_invalid.longblock_signal_request.sig
        = c.longblock_signal_request.sig
    ∧ c.set_longblock_signal_judge_request_invalid.longblock_signal_request.next_block
        = c.longblock_signal_request.next_block
    ∧ c.set_longblock_signal_judge_request_invalid.set_longblock_signal_judge_request_invalid
        = c.set_longblock_signal_judge_request_invalid
    ∧ c.set_longblock_signal_judge_request_invalid
        = { c with longblock_signal_request :=
              ⟨false, c.longblock_signal_request.sig, c.longblock_signal_request.next_block⟩ } :=
  ⟨rfl, rfl, rfl, rfl, rfl⟩

/-! ## C18: aircraft on the ground and in the air -/

/-- C18: for every air vehicle, `is_on_ground()` holds iff `flying_height` is 0
and the flight state is neither circling nor flying, and `is_flying()` is its
negation; on the ground `get_image()` is the cached image and
`get_outline_image()` is IMG_EMPTY, in the air `get_image()` is IMG_EMPTY and
`get_outline_image()` is the cached image, so one of the two is the cached
image and the other IMG_EMPTY. -/
theorem air_vehicle_image (IMG_EMPTY : Nat) (v : air_vehicle_t) :
    (v.is_on_ground = true ↔
      v.flying_height = 0 ∧ v.state ≠ air_vehicle_t.circling ∧ v.state ≠ air_vehicle_t.flying)
    ∧ v.is_flying = !v.is_on_ground
    ∧ (v.is_on_ground = true →
        v.get_image IMG_EMPTY = v.image ∧ v.get_outline_image IMG_EMPTY = IMG_EMPTY)
    ∧ (v.is_flying = true →
        v.get_image IMG_EMPTY = IMG_EMPTY ∧ v.get_outline_image IMG_EMPTY = v.image)
    ∧ ((v.get_image IMG_EMPTY = v.image ∧ v.get_outline_image IMG_EMPTY = IMG_EMPTY)
      ∨ (v.get_image IMG_EMPTY = IMG_EMPTY ∧ v.get_outline_image IMG_EMPTY = v.image)) := by
  refine ⟨?_, rfl, ?_, ?_, ?_⟩
  · simp [air_vehicle_t.is_on_ground]
  · intro h
    simp [air_vehicle_t.get_image, air_vehicle_t.get_outline_image, h]
  · intro h
    have h' : v.is_on_ground = false := by simpa [air_vehicle_t.is_flying] using h
    simp [air_vehicle_t.get_image, air_vehicle_t.get_outline_image, h']
  · cases h : v.is_on_ground
    · right; simp [air_vehicle_t.get_image, air_vehicle_t.get_outline_image, h]
    · left; simp [air_vehicle_t.get_image, air_vehicle_t.get_outline_image, h]

/-- C18 at concrete aircraft (image 42, IMG_EMPTY 65535): one at height 0 while
taxiing shows its image and no outline, one at height 0 in state flying shows
the outline only. -/
theorem air_vehicle_image_witness :
    (air_vehicle_t.get_image 65535
        ⟨⟨42, 0, 0, 0, 0, 0, 0, ⟨0, 0, 0⟩, 0⟩, air_vehicle_t.taxiing, 0, 0, 0, 0, 0, 5, 3⟩ = 42
      ∧ air_vehicle_t.get_outline_image 65535
        ⟨⟨42, 0, 0, 0, 0, 0, 0, ⟨0, 0, 0⟩, 0⟩, air_vehicle_t.taxiing, 0, 0, 0, 0, 0, 5, 3⟩
          = 65535)
    ∧ (air_vehicle_t.get_image 65535
        ⟨⟨42, 0, 0, 0, 0, 0, 0, ⟨0, 0, 0⟩, 0⟩, air_vehicle_t.flying, 0, 0, 0, 0, 0, 5, 3⟩
          = 65535
      ∧ air_vehicle_t.get_outline_image 65535
        ⟨⟨42, 0, 0, 0, 0, 0, 0, ⟨0, 0, 0⟩, 0⟩, air_vehicle_t.flying, 0, 0, 0, 0, 0, 5, 3⟩
          = 42) :=
  ⟨(air_vehicle_image 65535
      ⟨⟨42, 0, 0, 0, 0, 0, 0, ⟨0, 0, 0⟩, 0⟩, air_vehicle_t.taxiing, 0, 0, 0, 0, 0, 5, 3⟩).2.2.1
      (by decide),
    (air_vehicle_image 65535
      ⟨⟨42, 0, 0, 0, 0, 0, 0, ⟨0, 0, 0⟩, 0⟩, air_vehicle_t.flying, 0, 0, 0, 0, 0, 5, 3⟩).2.2.2.1
      (by decide)⟩

/-! ## C19: the max income of a vehicle -/

/-- C21: for every `n` and `m`, after `set_next_coupling(n, m)`
`get_next_coupling_index()` is `n` and `get_next_coupling_steps()` is `m`, and
`coupling_done`, `coupling_convoi` and the state are as before (as is every
member other than the two written). -/
theorem set_next_coupling_effect (c : convoi_t) (n m : Nat) :
    (c.set_next_coupling n m).get_next_coupling_index = n
    ∧ (c.set_next_coupling n m).get_next_coupling_steps = m
    ∧ (c.set_next_coupling n m).is_coupling_done = c.is_coupling_done
    ∧ (c.set_next_coupling n m).get_coupling_convoi = c.get_coupling_convoi
    ∧ (c.set_next_coupling n m).get_state = c.get_state
    ∧ (c.set_next_coupling n m).is_coupled = c.is_coupled
    ∧ c.set_next_coupling n m = { c with next_coupling_index := n, next_coupling_steps := m } :=
  ⟨rfl, rfl, rfl, rfl, rfl, rfl, rfl⟩

/-! ## C22 and C23: the buttons of the detail window -/

/-- C22, the code at the failing input: convoy 3 is freshly created
(`permit_trade = false`, `accept_player_nr = 0`) and owned by the player at
address 500; the active player is player 0 at address 501. `draw` disables the
trade button, yet `action_triggered` for the trade button issues the
accept-trade command 'o' and returns true. -/
theorem accept_trade_without_permit :
    get_permit_trade { blank with owner := 500 } = false
    ∧ (draw ⟨fun n => if n = 0 then some 501 else none, 501, 0⟩ (fun _ => ⟨0, false⟩)
        { blank with owner := 500 }).trade_convoi_button_enabled = false
    ∧ action_triggered ⟨fun n => if n = 0 then some 501 else none, 501, 0⟩
        (fun _ => { blank with owner := 500 }) ⟨some 3, [0], 0⟩ .trade_convoi_button
      = some ([.call_convoi_tool 3 'o' none], true) := by
  refine ⟨rfl, ?_, ?_⟩
  · decide
  · decide

/-- C23, counterexample: a convoy in state COUPLED whose `coupling_convoi` is
not bound, owned by the unlocked active player: `is_coupled()` holds and the
withdraw button is disabled, but the sale button is enabled. -/
theorem coupled_convoi_can_be_sold :
    is_coupled { blank with state := COUPLED, owner := 500 } = true
    ∧ (draw ⟨fun _ => some 500, 500, 0⟩ (fun _ => ⟨0, false⟩)
        { blank with state := COUPLED, owner := 500 }).sale_button_enabled = true
    ∧ (draw ⟨fun _ => some 500, 500, 0⟩ (fun _ => ⟨0, false⟩)
        { blank with state := COUPLED, owner := 500 }).withdraw_button_enabled = false := by
  refine ⟨?_, ?_, ?_⟩ <;> decide

/-- C23, amended: in `draw` the sale button is enabled iff the owner of the
convoy is the active player, the active player is not locked and
`get_coupling_convoi()` is not bound; the withdraw button is enabled iff the
sale button is enabled and `is_coupled()` is false. So withdraw enabled implies
sale enabled, a convoy whose `coupling_convoi` is bound can be neither sold nor
withdrawn, and a convoy in a coupled state cannot be withdrawn (whether it can
be sold depends on its `coupling_convoi` alone). -/
theorem draw_sale_and_withdraw (welt : karte_t) (player : Nat → player_t) (cnv : convoi_t) :
    ((draw welt player cnv).sale_button_enabled = true ↔
      cnv.get_owner = welt.active_player ∧ (player welt.active_player).locked = false
        ∧ cnv.get_coupling_convoi.is_bound = false)
    ∧ ((draw welt player cnv).withdraw_button_enabled = true ↔
      (draw welt player cnv).sale_button_enabled = true ∧ cnv.is_coupled = false)
    ∧ ((draw welt player cnv).withdraw_button_enabled = true →
      (draw welt player cnv).sale_button_enabled = true)
    ∧ (cnv.get_coupling_convoi.is_bound = true →
      (draw welt player cnv).sale_button_enabled = false
        ∧ (draw welt player cnv).withdraw_button_enabled = false)
    ∧ (cnv.is_coupled = true → (draw welt player cnv).withdraw_button_enabled = false) := by
  have hs : (draw welt player cnv).sale_button_enabled = true ↔
      cnv.get_owner = welt.active_player ∧ (player welt.active_player).locked = false
        ∧ cnv.get_coupling_convoi.is_bound = false := by
    simp [draw, and_assoc]
  have hw : (draw welt player cnv).withdraw_button_enabled = true ↔
      (draw welt player cnv).sale_button_enabled = true ∧ cnv.is_coupled = false := by
    simp [draw, and_assoc]
  refine ⟨hs, hw, fun h => (hw.1 h).1, ?_, ?_⟩
  · intro hb
    have h1 : (draw welt player cnv).sale_button_enabled = false := by
      cases h : (draw welt player cnv).sale_button_enabled
      · rfl
      · have := (hs.1 h).2.2
        rw [hb] at this
        cases this
    refine ⟨h1, ?_⟩
    cases h : (draw welt player cnv).withdraw_button_enabled
    · rfl
    · have := (hw.1 h).1
      rw [h1] at this
      cases this
  · intro hc
    cases h : (draw welt player cnv).withdraw_button_enabled
    · rfl
    · have := (hw.1 h).2
      rw [hc] at this
      cases this

/-- C23, the amended statement at concrete convoys of the unlocked active
player: one that is neither linked nor coupled can be sold and withdrawn, one
whose `coupling_convoi` is bound can be neither. -/
theorem draw_sale_and_withdraw_witness :
    ((draw ⟨fun _ => some 500, 500, 0⟩ (fun _ => ⟨0, false⟩)
        { blank with state := DRIVING, owner := 500 }).withdraw_button_enabled = true
      ∧ (draw ⟨fun _ => some 500, 500, 0⟩ (fun _ => ⟨0, false⟩)
        { blank with state := DRIVING, owner := 500 }).sale_button_enabled = true)
    ∧ ((draw ⟨fun _ => some 500, 500, 0⟩ (fun _ => ⟨0, false⟩)
        { blank with coupling_convoi := some 1, owner := 500 }).sale_button_enabled = false
      ∧ (draw ⟨fun _ => some 500, 500, 0⟩ (fun _ => ⟨0, false⟩)
        { blank with coupling_convoi := some 1, owner := 500 }).withdraw_button_enabled
          = false) :=
  ⟨⟨by decide,
      (draw_sale_and_withdraw ⟨fun _ => some 500, 500, 0⟩ (fun _ => ⟨0, false⟩)
        { blank with state := DRIVING, owner := 500 }).2.2.1 (by decide)⟩,
    (draw_sale_and_withdraw ⟨fun _ => some 500, 500, 0⟩ (fun _ => ⟨0, false⟩)
      { blank with coupling_convoi := some 1, owner := 500 }).2.2.2.1 (by decide)⟩

/-! ## C24 and C25: `init` of the detail window -/

/-- C24, the code at the failing input: players 0, 2 and 3 exist (player 1 does
not), convoy 7 belongs to player 2 and trade is not permitted. `init` fills
`viewable_players` with 0, 2, 3 and selects entry 2, the owner's player number
used as an index: the selected entry denotes player 3, not the owner, and the
owner pressing the trade button then permits the trade to player 3. -/
theorem init_selects_wrong_player :
    ((init_viewable_players
        ⟨fun n => if n = 0 ∨ n = 2 ∨ n = 3 then some (500 + n) else none, 502, 2⟩ 16
        (List.replicate 16 0)).1.take 3 = [0, 2, 3]
      ∧ (init_viewable_players
        ⟨fun n => if n = 0 ∨ n = 2 ∨ n = 3 then some (500 + n) else none, 502, 2⟩ 16
        (List.replicate 16 0)).2 = 3)
    ∧ get_permit_trade { blank with owner := 502 } = false
    ∧ (init ⟨fun n => if n = 0 ∨ n = 2 ∨ n = 3 then some (500 + n) else none, 502, 2⟩
        (fun a => ⟨a - 500, false⟩) (fun _ => { blank with owner := 502 }) 16
        (List.replicate 16 0) 7).trade_player_num_selection = 2
    ∧ viewable_player
        (init ⟨fun n => if n = 0 ∨ n = 2 ∨ n = 3 then some (500 + n) else none, 502, 2⟩
          (fun a => ⟨a - 500, false⟩) (fun _ => { blank with owner := 502 }) 16
          (List.replicate 16 0) 7) 2 = some 3
    ∧ action_triggered
        ⟨fun n => if n = 0 ∨ n = 2 ∨ n = 3 then some (500 + n) else none, 502, 2⟩
        (fun _ => { blank with owner := 502 })
        (init ⟨fun n => if n = 0 ∨ n = 2 ∨ n = 3 then some (500 + n) else none, 502, 2⟩
          (fun a => ⟨a - 500, false⟩) (fun _ => { blank with owner := 502 }) 16
          (List.replicate 16 0) 7) .trade_convoi_button
      = some ([.call_convoi_tool 7 'a' (some "3")], true) := by
  refine ⟨⟨?_, ?_⟩, rfl, ?_, ?_, ?_⟩ <;> decide

/-- C25, the code at the failing input: for a bound convoy without vehicles
(`get_vehicle_count() == 0`, no vehicle at index 0) `init` reads vehicle index
0 through `cnv->front()`, an index that is not below the vehicle count, while
`update_labels` reads no vehicle of it. -/
theorem init_reads_front_of_empty_convoi :
    blank.get_vehicle_count = 0
    ∧ blank.front = none
    ∧ init_vehicle_reads blank = [0]
    ∧ (∃ i, i ∈ init_vehicle_reads blank ∧ blank.get_vehicle_count ≤ i)
    ∧ update_labels_vehicle_reads blank = [] := by
  refine ⟨rfl, rfl, by decide, ⟨0, by decide, by decide⟩, by decide⟩

/-- The parts of C25 that hold: `update_labels` reads only indices below the
vehicle count, `init` does so for every convoy with at least one vehicle, and
`front()` and `back()` are `get_vehikel(0)` and
`get_vehikel(get_vehicle_count()-1)` for every convoy with at least one
vehicle. -/
theorem vehicle_reads_of_nonempty_convoi (cnv : convoi_t) :
    (∀ i, i ∈ update_labels_vehicle_reads cnv → i < cnv.get_vehicle_count)
    ∧ (0 < cnv.get_vehicle_count →
        (∀ i, i ∈ init_vehicle_reads cnv → i < cnv.get_vehicle_count)
        ∧ cnv.front = cnv.get_vehikel 0
        ∧ cnv.back = cnv.get_vehikel (cnv.get_vehicle_count - 1)) := by
  have hu : ∀ i, i ∈ update_labels_vehicle_reads cnv → i < cnv.get_vehicle_count := by
    intro i hi
    unfold update_labels_vehicle_reads at hi
    split at hi
    · rename_i hpos
      rw [List.mem_singleton] at hi
      omega
    · simp at hi
  refine ⟨hu, fun hpos => ⟨?_, rfl, ?_⟩⟩
  · intro i hi
    unfold init_vehicle_reads at hi
    rcases List.mem_cons.1 hi with h0 | h1
    · omega
    · rcases List.mem_append.1 h1 with h2 | h2
      · exact List.mem_range.1 h2
      · exact hu i h2
  · unfold back get_vehikel
    congr 1
    unfold get_vehicle_count at hpos ⊢
    omega

/-! ## C26: the altitude level of an aircraft -/

/-- C26, the code at the failing input: for `speed_limit_kmh = 1081344`
(= 33 * 32768) the quotient 32768 does not fit the `sint16` member
`altitude_level` and is stored as -32768 before the upper bound 30 is applied:
`altitude_level` ends as -32768 and `landing_distance` as 32766, outside
[5, 30] and [3, 28], although a smaller speed limit gives level 30. -/
theorem calc_altitude_level_overflows :
    (air_vehicle_t.calc_altitude_level
        ⟨⟨0, 0, 0, 0, 0, 0, 0, ⟨0, 0, 0⟩, 0⟩, 0, 0, 0, 0, 0, 0, 0, 0⟩
        1081344).altitude_level = -32768
    ∧ (air_vehicle_t.calc_altitude_level
        ⟨⟨0, 0, 0, 0, 0, 0, 0, ⟨0, 0, 0⟩, 0⟩, 0, 0, 0, 0, 0, 0, 0, 0⟩
        1081344).landing_distance = 32766
    ∧ (air_vehicle_t.calc_altitude_level
        ⟨⟨0, 0, 0, 0, 0, 0, 0, ⟨0, 0, 0⟩, 0⟩, 0, 0, 0, 0, 0, 0, 0, 0⟩
        1081343).altitude_level = 30 := by
  refine ⟨?_, ?_, ?_⟩ <;> decide

/-- The part of C26 that holds: for every `speed_limit_kmh` below 1081344
(negative ones included) `altitude_level` is `speed_limit_kmh/33` clamped to
[5, 30] and `landing_distance` is `altitude_level - 2`. -/
theorem calc_altitude_level_in_range (v : air_vehicle_t) (speed_limit_kmh : Int)
    (h : speed_limit_kmh < 1081344) :
    (v.calc_altitude_level speed_limit_kmh).altitude_level
        = min (max 5 (Int.tdiv speed_limit_kmh 33)) 30
    ∧ (v.calc_altitude_level speed_limit_kmh).landing_distance
        = (v.calc_altitude_level speed_limit_kmh).altitude_level - 2
    ∧ 5 ≤ (v.calc_altitude_level speed_limit_kmh).altitude_level
    ∧ (v.calc_altitude_level speed_limit_kmh).altitude_level ≤ 30 := by
  have hq : Int.tdiv speed_limit_kmh 33 < 32768 := by
    by_cases hx : 0 ≤ speed_limit_kmh
    · rw [Int.tdiv_eq_ediv hx (by decide)]
      omega
    · have hneg : Int.tdiv speed_limit_kmh 33 = -((-speed_limit_kmh) / 33) := by
        have h1 := Int.neg_tdiv (-speed_limit_kmh) 33
        rw [Int.neg_neg] at h1
        rw [h1, Int.tdiv_eq_ediv (by omega) (by decide)]
      rw [hneg]
      omega
  have h1 : wrap_sint16 (max 5 (Int.tdiv speed_limit_kmh 33))
      = max 5 (Int.tdiv speed_limit_kmh 33) := by
    unfold wrap_sint16
    omega
  have h2 : wrap_sint16 (min (max 5 (Int.tdiv speed_limit_kmh 33)) 30)
      = min (max 5 (Int.tdiv speed_limit_kmh 33)) 30 := by
    unfold wrap_sint16
    omega
  have h3 : wrap_sint16 (min (max 5 (Int.tdiv speed_limit_kmh 33)) 30 - 2)
      = min (max 5 (Int.tdiv speed_limit_kmh 33)) 30 - 2 := by
    unfold wrap_sint16
    omega
  have ha : (v.calc_altitude_level speed_limit_kmh).altitude_level
      = min (max 5 (Int.tdiv speed_limit_kmh 33)) 30 := by
    show wrap_sint16 (min (wrap_sint16 (max 5 (Int.tdiv speed_limit_kmh 33))) 30) = _
    rw [h1, h2]
  have hl : (v.calc_altitude_level speed_limit_kmh).landing_distance
      = min (max 5 (Int.tdiv speed_limit_kmh 33)) 30 - 2 := by
    show wrap_sint16
      (wrap_sint16 (min (wrap_sint16 (max 5 (Int.tdiv speed_limit_kmh 33))) 30) - 2) = _
    rw [h1, h2, h3]
  refine ⟨ha, by rw [hl, ha], ?_, ?_⟩
  · rw [ha]; omega
  · rw [ha]; omega

/-! ## C27: the cached costs -/

/-- C27, the code at the failing input: for `sum_fixed_costs = -2^31` the
negation is done in 32 bits and wraps, `get_fixed_cost()` returns -2^31 and
`get_fixed_cost() + sum_fixed_costs` is -2^32, not 0. -/
theorem get_fixed_cost_at_minimum :
    get_fixed_cost { blank with sum_fixed_costs := -2147483648 } = -2147483648
    ∧ get_fixed_cost { blank with sum_fixed_costs := -2147483648 } + (-2147483648)
        = -4294967296
    ∧ get_fixed_cost { blank with sum_fixed_costs := -2147483648 } + (-2147483648) ≠ 0 := by
  refine ⟨?_, ?_, ?_⟩ <;> decide

/-- The parts of C27 that hold: for every `sint32` value of `sum_fixed_costs`
other than -2^31, `get_fixed_cost() + sum_fixed_costs == 0`, and for every
`sint32` value of `sum_running_costs` other than -2^31 (those whose negation
fits a `sint32`) `get_running_cost() == -sum_running_costs`. -/
theorem costs_negated_in_range (c : convoi_t) :
    (-2 ^ 31 < c.sum_fixed_costs → c.sum_fixed_costs < 2 ^ 31 →
      c.get_fixed_cost + c.sum_fixed_costs = 0)
    ∧ (-2 ^ 31 < c.sum_running_costs → c.sum_running_costs < 2 ^ 31 →
      c.get_running_cost = -c.sum_running_costs) := by
  constructor
  · intro h1 h2
    unfold get_fixed_cost wrap_sint32
    omega
  · intro h1 h2
    unfold get_running_cost wrap_sint32
    omega

/-! ## The part of C24 that holds -/

theorem take_succ_set_self (arr : List Nat) (k x : Nat) (h : k < arr.length) :
    (arr.set k x).take (k + 1) = arr.take k ++ [x] := by
  rw [List.take_succ, List.set_take, List.getElem?_set_self h]
  rw [List.set_eq_of_length_le (by simp)]
  rfl

/-- The player loop on any list of candidate numbers: the entries written are
the candidates for which a player exists, in the order of the list, behind the
`k` entries that were there. -/
theorem player_loop_invariant (welt : karte_t) (l : List Nat) (arr : List Nat) (k : Nat)
    (h : k + l.length ≤ arr.length) :
    (l.foldl
        (fun acc np =>
          if (welt.get_player np).isSome then (acc.1.set acc.2 np, acc.2 + 1) else acc)
        (arr, k)).2 = k + (l.filter (fun np => (welt.get_player np).isSome)).length
    ∧ (l.foldl
        (fun acc np =>
          if (welt.get_player np).isSome then (acc.1.set acc.2 np, acc.2 + 1) else acc)
        (arr, k)).1.take
        (l.foldl
          (fun acc np =>
            if (welt.get_player np).isSome then (acc.1.set acc.2 np, acc.2 + 1) else acc)
          (arr, k)).2
      = arr.take k ++ l.filter (fun np => (welt.get_player np).isSome) := by
  induction l generalizing arr k with
  | nil => simp
  | cons x xs ih =>
    simp only [List.length_cons] at h
    rw [List.foldl_cons]
    by_cases hp : (welt.get_player x).isSome = true
    · rw [if_pos hp]
      have hlen : k + 1 + xs.length ≤ (arr.set k x).length := by
        rw [List.length_set]; omega
      obtain ⟨h1, h2⟩ := ih (arr.set k x) (k + 1) hlen
      have hf : List.filter (fun np => (welt.get_player np).isSome) (x :: xs)
          = x :: List.filter (fun np => (welt.get_player np).isSome) xs := by
        simp [List.filter_cons, hp]
      rw [hf]
      dsimp only
      refine ⟨?_, ?_⟩
      · rw [h1, List.length_cons]; omega
      · rw [h2, take_succ_set_self arr k x (by omega)]
        simp
    · rw [if_neg hp]
      obtain ⟨h1, h2⟩ := ih arr k (by omega)
      have hf : List.filter (fun np => (welt.get_player np).isSome) (x :: xs)
          = List.filter (fun np => (welt.get_player np).isSome) xs := by
        simp [List.filter_cons, hp]
      rw [hf]
      exact ⟨h1, h2⟩

/-- The first part of C24 holds: after the player loop of `init`, for every set
of existing players (gaps included), the first `count` entries of
`viewable_players` are the numbers of the existing players in ascending order,
`count` being the number of existing players (the array has room for
`MAX_PLAYER_COUNT` entries). -/
theorem init_viewable_players_lists_existing (welt : karte_t) (MAX_PLAYER_COUNT : Nat)
    (old : List Nat) (h : MAX_PLAYER_COUNT ≤ old.length) :
    (init_viewable_players welt MAX_PLAYER_COUNT old).2
        = ((List.range MAX_PLAYER_COUNT).filter
            (fun np => (welt.get_player np).isSome)).length
    ∧ (init_viewable_players welt MAX_PLAYER_COUNT old).1.take
        (init_viewable_players welt MAX_PLAYER_COUNT old).2
      = (List.range MAX_PLAYER_COUNT).filter (fun np => (welt.get_player np).isSome) := by
  have hlen : 0 + (List.range MAX_PLAYER_COUNT).length ≤ (old.set 0 0).length := by
    rw [List.length_set, List.length_range]; omega
  obtain ⟨h1, h2⟩ := player_loop_invariant welt (List.range MAX_PLAYER_COUNT) (old.set 0 0) 0 hlen
  unfold init_viewable_players
  refine ⟨?_, ?_⟩
  · rw [h1]; omega
  · rw [h2]; simp
